import Mathlib

/-!
# Verification of the r3f-vfx particle engine core

A shallow embedding, over `ℚ` and `ℕ`, of the simulation core of the
`r3f-vfx` particle system (packages/core-vfx and the compute passes of
packages/r3f-vfx/src/VFXParticles.tsx), together with theorems settling
the specified behaviour of the ring-buffer spawn allocator, the
dead-particle sentinel invariant, spawn-override save/restore, the curve
baker and its binary format, feature resolution, the emitter controller,
and the colour-palette lookup.

Numeric values are modelled as rationals.  External numeric primitives of
the host (square root, the noise field, the GPU hash) are passed in as
explicit function parameters: no claim below depends on their values.
-/

namespace VFX

/-! ## Ring-buffer spawn allocator

`particle-system.ts` (`VFXParticleSystem.spawn`) computes
`startIdx = _nextIndex`, `endIdx = (startIdx + count) % maxParticles`,
and advances `_nextIndex = endIdx`.  `cpu-spawn.ts` (`cpuSpawn`)
derives the slot count back from the index pair and touches the slots
`(startIdx + j) % maxParticles` for `j < count`. -/

/-- `endIdx = (startIdx + count) % maxParticles` (particle-system.ts, spawn). -/
def spawnEndIdx (startIdx count maxParticles : ℕ) : ℕ :=
  (startIdx + count) % maxParticles

/-- cpu-spawn.ts: `count = startIdx < endIdx ? endIdx - startIdx
: maxParticles - startIdx + endIdx`. -/
def cpuSpawnCount (startIdx endIdx maxParticles : ℕ) : ℕ :=
  if startIdx < endIdx then endIdx - startIdx else maxParticles - startIdx + endIdx

/-- The slots written by `cpuSpawn`: `i = (startIdx + j) % maxParticles`
for `j` below the derived count. -/
def cpuSpawnSlots (startIdx endIdx maxParticles : ℕ) : List ℕ :=
  (List.range (cpuSpawnCount startIdx endIdx maxParticles)).map
    (fun j => (startIdx + j) % maxParticles)

/-- One spawn call: the new cursor together with the list of touched slots. -/
def spawnTouch (maxParticles cursor count : ℕ) : ℕ × List ℕ :=
  (spawnEndIdx cursor count maxParticles,
   cpuSpawnSlots cursor (spawnEndIdx cursor count maxParticles) maxParticles)

/-- Successive cursor values produced by a sequence of spawn calls. -/
def spawnCursorSeq (maxParticles : ℕ) (cursor : ℕ) : List ℕ → List ℕ
  | [] => []
  | c :: cs =>
    spawnEndIdx cursor c maxParticles ::
      spawnCursorSeq maxParticles (spawnEndIdx cursor c maxParticles) cs

/-- All slots touched, in order, by a sequence of spawn calls. -/
def spawnTouchSeq (maxParticles : ℕ) (cursor : ℕ) : List ℕ → List ℕ
  | [] => []
  | c :: cs =>
    (spawnTouch maxParticles cursor c).2 ++
      spawnTouchSeq maxParticles (spawnEndIdx cursor c maxParticles) cs

/-! ## The parameter store ("uniforms")

`createUniforms` (uniforms.ts) builds one mutable cell per simulation
scalar; vector-valued cells (`THREE.Vector3` / `THREE.Color`) are modelled
componentwise.  The store is a total map from cell name to rational value. -/

/-- The scalar-valued uniform cell names of `createUniforms` (uniforms.ts);
`Vector3` cells are split into components. -/
inductive UScalarKey where
  | sizeMin | sizeMax
  | fadeSizeStart | fadeSizeEnd
  | fadeOpacityStart | fadeOpacityEnd
  | gravityX | gravityY | gravityZ
  | frictionIntensityStart | frictionIntensityEnd | frictionEasingType
  | speedMin | speedMax
  | lifetimeMin | lifetimeMax
  | deltaTime
  | dirMinX | dirMaxX | dirMinY | dirMaxY | dirMinZ | dirMaxZ
  | startPosMinX | startPosMaxX | startPosMinY | startPosMaxY
  | startPosMinZ | startPosMaxZ
  | spawnPositionX | spawnPositionY | spawnPositionZ
  | spawnIndexStart | spawnIndexEnd | spawnSeed
  | intensity
  | rotationMinX | rotationMaxX | rotationMinY | rotationMaxY
  | rotationMinZ | rotationMaxZ
  | rotationSpeedMinX | rotationSpeedMaxX | rotationSpeedMinY
  | rotationSpeedMaxY | rotationSpeedMinZ | rotationSpeedMaxZ
  | colorStartCount | colorEndCount
  | emitterShapeType | emitterRadiusInner | emitterRadiusOuter | emitterAngle
  | emitterHeightMin | emitterHeightMax | emitterSurfaceOnly
  | emitterDirX | emitterDirY | emitterDirZ
  | turbulenceIntensity | turbulenceFrequency | turbulenceSpeed
  | turbulenceTime
  | attractorCount
  | attractToCenter | startPositionAsDirection
  | softParticlesEnabled | softDistance
  | velocityCurveEnabled | rotationSpeedCurveEnabled
  | fadeSizeCurveEnabled | fadeOpacityCurveEnabled
  | orientAxisType
  | stretchEnabled | stretchFactor | stretchMax
  | collisionEnabled | collisionPlaneY | collisionBounce
  | collisionFriction | collisionDie
  | sizeBasedGravity
deriving DecidableEq

/-- A uniform cell name: a scalar cell, a component of one of the eight
`colorStart${i}` / `colorEnd${i}` palette cells (`Fin 3` = r/g/b), or a
component of one of the four `attractor${i}…` slots. -/
inductive UKey where
  | scalar : UScalarKey → UKey
  | colorStart : Fin 8 → Fin 3 → UKey
  | colorEnd : Fin 8 → Fin 3 → UKey
  | attractorPos : Fin 4 → Fin 3 → UKey
  | attractorStrength : Fin 4 → UKey
  | attractorRadius : Fin 4 → UKey
  | attractorType : Fin 4 → UKey
  | attractorAxis : Fin 4 → Fin 3 → UKey
deriving DecidableEq

namespace UKey

abbrev sizeMin : UKey := scalar .sizeMin
abbrev sizeMax : UKey := scalar .sizeMax
abbrev fadeSizeStart : UKey := scalar .fadeSizeStart
abbrev fadeSizeEnd : UKey := scalar .fadeSizeEnd
abbrev fadeOpacityStart : UKey := scalar .fadeOpacityStart
abbrev fadeOpacityEnd : UKey := scalar .fadeOpacityEnd
abbrev gravityX : UKey := scalar .gravityX
abbrev gravityY : UKey := scalar .gravityY
abbrev gravityZ : UKey := scalar .gravityZ
abbrev frictionIntensityStart : UKey := scalar .frictionIntensityStart
abbrev frictionIntensityEnd : UKey := scalar .frictionIntensityEnd
abbrev frictionEasingType : UKey := scalar .frictionEasingType
abbrev speedMin : UKey := scalar .speedMin
abbrev speedMax : UKey := scalar .speedMax
abbrev lifetimeMin : UKey := scalar .lifetimeMin
abbrev lifetimeMax : UKey := scalar .lifetimeMax
abbrev deltaTime : UKey := scalar .deltaTime
abbrev dirMinX : UKey := scalar .dirMinX
abbrev dirMaxX : UKey := scalar .dirMaxX
abbrev dirMinY : UKey := scalar .dirMinY
abbrev dirMaxY : UKey := scalar .dirMaxY
abbrev dirMinZ : UKey := scalar .dirMinZ
abbrev dirMaxZ : UKey := scalar .dirMaxZ
abbrev startPosMinX : UKey := scalar .startPosMinX
abbrev startPosMaxX : UKey := scalar .startPosMaxX
abbrev startPosMinY : UKey := scalar .startPosMinY
abbrev startPosMaxY : UKey := scalar .startPosMaxY
abbrev startPosMinZ : UKey := scalar .startPosMinZ
abbrev startPosMaxZ : UKey := scalar .startPosMaxZ
abbrev spawnPositionX : UKey := scalar .spawnPositionX
abbrev spawnPositionY : UKey := scalar .spawnPositionY
abbrev spawnPositionZ : UKey := scalar .spawnPositionZ
abbrev spawnIndexStart : UKey := scalar .spawnIndexStart
abbrev spawnIndexEnd : UKey := scalar .spawnIndexEnd
abbrev spawnSeed : UKey := scalar .spawnSeed
abbrev intensity : UKey := scalar .intensity
abbrev rotationMinX : UKey := scalar .rotationMinX
abbrev rotationMaxX : UKey := scalar .rotationMaxX
abbrev rotationMinY : UKey := scalar .rotationMinY
abbrev rotationMaxY : UKey := scalar .rotationMaxY
abbrev rotationMinZ : UKey := scalar .rotationMinZ
abbrev rotationMaxZ : UKey := scalar .rotationMaxZ
abbrev rotationSpeedMinX : UKey := scalar .rotationSpeedMinX
abbrev rotationSpeedMaxX : UKey := scalar .rotationSpeedMaxX
abbrev rotationSpeedMinY : UKey := scalar .rotationSpeedMinY
abbrev rotationSpeedMaxY : UKey := scalar .rotationSpeedMaxY
abbrev rotationSpeedMinZ : UKey := scalar .rotationSpeedMinZ
abbrev rotationSpeedMaxZ : UKey := scalar .rotationSpeedMaxZ
abbrev colorStartCount : UKey := scalar .colorStartCount
abbrev colorEndCount : UKey := scalar .colorEndCount
abbrev emitterShapeType : UKey := scalar .emitterShapeType
abbrev emitterRadiusInner : UKey := scalar .emitterRadiusInner
abbrev emitterRadiusOuter : UKey := scalar .emitterRadiusOuter
abbrev emitterAngle : UKey := scalar .emitterAngle
abbrev emitterHeightMin : UKey := scalar .emitterHeightMin
abbrev emitterHeightMax : UKey := scalar .emitterHeightMax
abbrev emitterSurfaceOnly : UKey := scalar .emitterSurfaceOnly
abbrev emitterDirX : UKey := scalar .emitterDirX
abbrev emitterDirY : UKey := scalar .emitterDirY
abbrev emitterDirZ : UKey := scalar .emitterDirZ
abbrev turbulenceIntensity : UKey := scalar .turbulenceIntensity
abbrev turbulenceFrequency : UKey := scalar .turbulenceFrequency
abbrev turbulenceSpeed : UKey := scalar .turbulenceSpeed
abbrev turbulenceTime : UKey := scalar .turbulenceTime
abbrev attractorCount : UKey := scalar .attractorCount
abbrev attractToCenter : UKey := scalar .attractToCenter
abbrev startPositionAsDirection : UKey := scalar .startPositionAsDirection
abbrev softParticlesEnabled : UKey := scalar .softParticlesEnabled
abbrev softDistance : UKey := scalar .softDistance
abbrev velocityCurveEnabled : UKey := scalar .velocityCurveEnabled
abbrev rotationSpeedCurveEnabled : UKey := scalar .rotationSpeedCurveEnabled
abbrev fadeSizeCurveEnabled : UKey := scalar .fadeSizeCurveEnabled
abbrev fadeOpacityCurveEnabled : UKey := scalar .fadeOpacityCurveEnabled
abbrev orientAxisType : UKey := scalar .orientAxisType
abbrev stretchEnabled : UKey := scalar .stretchEnabled
abbrev stretchFactor : UKey := scalar .stretchFactor
abbrev stretchMax : UKey := scalar .stretchMax
abbrev collisionEnabled : UKey := scalar .collisionEnabled
abbrev collisionPlaneY : UKey := scalar .collisionPlaneY
abbrev collisionBounce : UKey := scalar .collisionBounce
abbrev collisionFriction : UKey := scalar .collisionFriction
abbrev collisionDie : UKey := scalar .collisionDie
abbrev sizeBasedGravity : UKey := scalar .sizeBasedGravity

end UKey

/-- The parameter store: one rational value per uniform cell. -/
abbrev Uniforms := UKey → ℚ

/-- Write a single uniform cell. -/
def uset (u : Uniforms) (k : UKey) (v : ℚ) : Uniforms :=
  fun k' => if k' = k then v else u k'

/-- A sequence of cell writes, in program order. -/
abbrev Writes := List (UKey × ℚ)

/-- Apply a sequence of writes, left to right. -/
def applyWrites (u : Uniforms) : Writes → Uniforms
  | [] => u
  | (k, v) :: ws => applyWrites (uset u k v) ws

/-- The `saved` record accumulated by `applySpawnOverrides` (uniforms.ts):
for each write, the cell's value at the moment it is overwritten, paired
with its key, in write order.  The returned restore closure replays these
saved values with `applyWrites`. -/
def savedOf (u : Uniforms) : Writes → Writes
  | [] => []
  | (k, v) :: ws => (k, u k) :: savedOf (uset u k v) ws

/-- The keys of a write sequence. -/
def keysOf (ws : Writes) : List UKey := ws.map Prod.fst

/-! ## Vectors, particles, storage initialisation -/

/-- A 3-component rational vector (models `vec3` / `THREE.Vector3`). -/
structure Vec3 where
  x : ℚ
  y : ℚ
  z : ℚ
deriving DecidableEq

/-- Componentwise sum. -/
def Vec3.add (a b : Vec3) : Vec3 := ⟨a.x + b.x, a.y + b.y, a.z + b.z⟩

/-- Componentwise difference. -/
def Vec3.sub (a b : Vec3) : Vec3 := ⟨a.x - b.x, a.y - b.y, a.z - b.z⟩

/-- Componentwise negation. -/
def Vec3.neg (a : Vec3) : Vec3 := ⟨-a.x, -a.y, -a.z⟩

/-- Scale by a scalar (TSL `v.mul(s)`). -/
def Vec3.mulS (a : Vec3) (s : ℚ) : Vec3 := ⟨a.x * s, a.y * s, a.z * s⟩

/-- Divide by a scalar (TSL `v.div(s)`). -/
def Vec3.divS (a : Vec3) (s : ℚ) : Vec3 := ⟨a.x / s, a.y / s, a.z / s⟩

/-- The zero vector. -/
def Vec3.zero : Vec3 := ⟨0, 0, 0⟩

/-- Cross product, with the component formulas written out as in the
vortex-attractor branch of the update kernel. -/
def Vec3.cross (a b : Vec3) : Vec3 :=
  ⟨a.y * b.z - a.z * b.y, a.z * b.x - a.x * b.z, a.x * b.y - a.y * b.x⟩

instance : Add Vec3 := ⟨Vec3.add⟩

/-- One slot of the particle storage pool (position, velocity, lifetime,
fade rate, size, rotation buffers of storage.ts). -/
structure Particle where
  pos : Vec3
  vel : Vec3
  lifetime : ℚ
  fadeRate : ℚ
  size : ℚ
  rotation : Vec3
deriving DecidableEq

/-- `cpuInit` (cpu-init.ts) per slot: every buffer zeroed, then
`positions[i*3+1] = -1000`.  (The optional colour buffers are filled with
constant 1 and carry no lifetime information.) -/
def cpuInitSlot : Particle :=
  { pos := ⟨0, -1000, 0⟩, vel := Vec3.zero, lifetime := 0, fadeRate := 0,
    size := 0, rotation := Vec3.zero }

/-- The pool after `cpuInit`: all `maxParticles` slots dead at the sentinel. -/
def cpuInitStorage (maxParticles : ℕ) : Fin maxParticles → Particle :=
  fun _ => cpuInitSlot

/-! ## CPU spawn fill (cpu-spawn.ts)

The per-slot fill algorithm, translated from the body of the `cpuSpawn`
loop.  The host's numeric primitives (`Math.sqrt`, `Math.sin`, `Math.cos`,
`Math.acos`, `Math.pow(·, 1/3)`, `Math.PI`) and the shared GPU/CPU `hash`
function (whose source file is not part of this snapshot) are passed in as
explicit parameters; no theorem below depends on their values. -/

/-- The numeric primitives used by the spawn shape sampler. -/
structure MathEnv where
  sqrtA : ℚ → ℚ
  sinA : ℚ → ℚ
  cosA : ℚ → ℚ
  acosA : ℚ → ℚ
  cbrtA : ℚ → ℚ
  piA : ℚ

/-- Output of one spawn fill: the written storage cells.  `rotation` and the
colour pair are `none` when the optional buffers do not exist. -/
structure SpawnedSlot where
  pos : Vec3
  vel : Vec3
  lifetime : ℚ
  fadeRate : ℚ
  size : ℚ
  rotation : Option Vec3
  colorStartV : Option Vec3
  colorEndV : Option Vec3
deriving DecidableEq

/-- `getColor` of cpu-spawn.ts applied to the uniform store, where all eight
palette cells exist: `clampedIdx = min(max(floor(idx), 0), 7)`, then read
`colorStart${clampedIdx}` / `colorEnd${clampedIdx}`. -/
def getColorU (u : Uniforms) (mk : Fin 8 → Fin 3 → UKey) (idx : ℚ) : Vec3 :=
  let clampedIdx : ℤ := min (max ⌊idx⌋ 0) 7
  let i : Fin 8 := ⟨clampedIdx.toNat, by omega⟩
  ⟨u (mk i 0), u (mk i 1), u (mk i 2)⟩

open UKey in
/-- The emission-shape offset for slot `i` (cpu-spawn.ts lines 52–162):
per-slot randoms hashed from `i + spawnSeed`, one of six shape samplers,
cone/disk offsets rotated to the emitter direction by Rodrigues' formula. -/
def cpuShapeOffset (m : MathEnv) (hashF : ℚ → ℚ) (u : Uniforms) (i : ℕ) : Vec3 :=
  let particleSeed : ℚ := (i : ℚ) + u spawnSeed
  let randPosX := hashF (particleSeed + 5555)
  let randPosY := hashF (particleSeed + 6666)
  let randPosZ := hashF (particleSeed + 7777)
  let randRadius := hashF (particleSeed + 8880)
  let randTheta := hashF (particleSeed + 9990)
  let randPhi := hashF (particleSeed + 10100)
  let randHeight := hashF (particleSeed + 11110)
  let shapeType := u emitterShapeType
  let radiusInner := u emitterRadiusInner
  let radiusOuter := u emitterRadiusOuter
  let coneAngle := u emitterAngle
  let heightMin := u emitterHeightMin
  let heightMax := u emitterHeightMax
  let surfaceOnly := u emitterSurfaceOnly
  let emitDirX := u emitterDirX
  let emitDirY := u emitterDirY
  let emitDirZ := u emitterDirZ
  let theta := randTheta * m.piA * 2
  let phi := m.acosA (1 - randPhi * 2)
  let radiusT := if surfaceOnly > 1/2 then 1 else m.cbrtA randRadius
  let radius := radiusInner + (radiusOuter - radiusInner) * radiusT
  let cosAngleVal := emitDirY
  let axisX := -emitDirZ
  let axisZ := emitDirX
  let axisLenSq := axisX * axisX + axisZ * axisZ
  let axisLen := m.sqrtA (max axisLenSq (1/10000))
  let kx := axisX / axisLen
  let kz := axisZ / axisLen
  let sinAngleVal := axisLen
  let oneMinusCos := 1 - cosAngleVal
  let rotateToEmitDir : ℚ → ℚ → ℚ → Vec3 := fun lx ly lz =>
    if cosAngleVal > 999/1000 then ⟨lx, ly, lz⟩
    else if cosAngleVal < -(999/1000) then ⟨lx, -ly, lz⟩
    else
      let crossX := -(kz * ly)
      let crossY := kz * lx - kx * lz
      let crossZ := kx * ly
      let kDotV := kx * lx + kz * lz
      ⟨lx * cosAngleVal + crossX * sinAngleVal + kx * kDotV * oneMinusCos,
       ly * cosAngleVal + crossY * sinAngleVal,
       lz * cosAngleVal + crossZ * sinAngleVal + kz * kDotV * oneMinusCos⟩
  if shapeType < 1/2 then
    Vec3.zero
  else if shapeType < 3/2 then
    ⟨u startPosMinX + (u startPosMaxX - u startPosMinX) * randPosX,
     u startPosMinY + (u startPosMaxY - u startPosMinY) * randPosY,
     u startPosMinZ + (u startPosMaxZ - u startPosMinZ) * randPosZ⟩
  else if shapeType < 5/2 then
    ⟨radius * m.sinA phi * m.cosA theta,
     radius * m.cosA phi,
     radius * m.sinA phi * m.sinA theta⟩
  else if shapeType < 7/2 then
    let coneH := heightMin + (heightMax - heightMin) * randHeight
    let coneR := coneH * m.sinA coneAngle * radiusT
    rotateToEmitDir (coneR * m.cosA theta) (coneH * m.cosA coneAngle)
      (coneR * m.sinA theta)
  else if shapeType < 9/2 then
    let diskR :=
      if surfaceOnly > 1/2 then radiusOuter
      else radiusInner + (radiusOuter - radiusInner) * m.sqrtA randRadius
    rotateToEmitDir (diskR * m.cosA theta) 0 (diskR * m.sinA theta)
  else
    let edgeT := randPosX
    ⟨u startPosMinX + (u startPosMaxX - u startPosMinX) * edgeT,
     u startPosMinY + (u startPosMaxY - u startPosMinY) * edgeT,
     u startPosMinZ + (u startPosMaxZ - u startPosMinZ) * edgeT⟩

open UKey in
/-- The per-slot fade rate: `lifetimeMin + (lifetimeMax − lifetimeMin) ·
hash(i + seed + 666)` (cpu-spawn.ts lines 172–176). -/
def cpuRandomFade (hashF : ℚ → ℚ) (u : Uniforms) (i : ℕ) : ℚ :=
  let particleSeed : ℚ := (i : ℚ) + u spawnSeed
  let randFade := hashF (particleSeed + 666)
  u lifetimeMin + (u lifetimeMax - u lifetimeMin) * randFade

open UKey in
/-- One iteration of the `cpuSpawn` loop (cpu-spawn.ts lines 27–289) for slot
`i`: position from spawn position plus shape offset, fade rate, velocity
(attract-to-centre / start-position-as-direction / random direction), size,
optional rotation, optional colours, lifetime 1. -/
def cpuSpawnFill (m : MathEnv) (hashF : ℚ → ℚ) (u : Uniforms)
    (hasRotation hasColor : Bool) (i : ℕ) : SpawnedSlot :=
  let particleSeed : ℚ := (i : ℚ) + u spawnSeed
  let randDirX := hashF (particleSeed + 333)
  let randDirY := hashF (particleSeed + 444)
  let randDirZ := hashF (particleSeed + 555)
  let randColorStart := hashF (particleSeed + 777)
  let randColorEnd := hashF (particleSeed + 888)
  let randSize := hashF (particleSeed + 999)
  let randSpeed := hashF (particleSeed + 1111)
  let randRotationX := hashF (particleSeed + 2222)
  let randRotationY := hashF (particleSeed + 3333)
  let randRotationZ := hashF (particleSeed + 4444)
  let shape := cpuShapeOffset m hashF u i
  let pos : Vec3 := ⟨u spawnPositionX + shape.x, u spawnPositionY + shape.y,
    u spawnPositionZ + shape.z⟩
  let randomFade := cpuRandomFade hashF u i
  let vel : Vec3 :=
    if u attractToCenter > 1/2 then
      ⟨-shape.x * randomFade, -shape.y * randomFade, -shape.z * randomFade⟩
    else
      let dir : Vec3 :=
        if u startPositionAsDirection > 1/2 then
          let len := m.sqrtA (shape.x * shape.x + shape.y * shape.y +
            shape.z * shape.z)
          if len > 1/1000 then ⟨shape.x / len, shape.y / len, shape.z / len⟩
          else Vec3.zero
        else
          let rdx := u dirMinX + (u dirMaxX - u dirMinX) * randDirX
          let rdy := u dirMinY + (u dirMaxY - u dirMinY) * randDirY
          let rdz := u dirMinZ + (u dirMaxZ - u dirMinZ) * randDirZ
          let len := m.sqrtA (rdx * rdx + rdy * rdy + rdz * rdz)
          if len > 1/1000 then ⟨rdx / len, rdy / len, rdz / len⟩
          else Vec3.zero
      let randomSpeed := u speedMin + (u speedMax - u speedMin) * randSpeed
      ⟨dir.x * randomSpeed, dir.y * randomSpeed, dir.z * randomSpeed⟩
  { pos := pos
    vel := vel
    lifetime := 1
    fadeRate := randomFade
    size := u sizeMin + (u sizeMax - u sizeMin) * randSize
    rotation :=
      if hasRotation then
        some ⟨u rotationMinX + (u rotationMaxX - u rotationMinX) * randRotationX,
          u rotationMinY + (u rotationMaxY - u rotationMinY) * randRotationY,
          u rotationMinZ + (u rotationMaxZ - u rotationMinZ) * randRotationZ⟩
      else none
    colorStartV :=
      if hasColor then
        some (getColorU u UKey.colorStart ⌊randColorStart * u colorStartCount⌋)
      else none
    colorEndV :=
      if hasColor then
        some (getColorU u UKey.colorEnd ⌊randColorEnd * u colorEndCount⌋)
      else none }

/-! ## The per-frame integrator (computeUpdate, VFXParticles.tsx 1521–1794)

The update kernel for one particle slot.  The curve texture's velocity and
rotation-speed channels, the `mx_noise_vec3` noise field, the GPU `hash`,
and the numeric square root are environment parameters. -/

/-- Per-slot attractor parameters (uniform cells `attractor{i}…`). -/
structure AttractorSlot where
  pos : Vec3
  strength : ℚ
  radius : ℚ
  kind : ℚ
  axis : Vec3

/-- The inputs of the update kernel: the uniform cells it reads plus the
external functions (curve-texture channels, noise field, hash, square
root). -/
structure UpdateEnv where
  deltaTime : ℚ
  gravity : Vec3
  sizeBasedGravity : ℚ
  velocityCurveEnabled : ℚ
  curveVelocity : ℚ → ℚ
  rotationSpeedCurveEnabled : ℚ
  curveRotationSpeed : ℚ → ℚ
  frictionEasingType : ℚ
  frictionIntensityStart : ℚ
  frictionIntensityEnd : ℚ
  turbulenceIntensity : ℚ
  turbulenceFrequency : ℚ
  turbulenceTime : ℚ
  noiseVec3 : Vec3 → Vec3
  attractorCount : ℚ
  attractor : Fin 4 → AttractorSlot
  sqrtA : ℚ → ℚ
  hashF : ℚ → ℚ
  collisionEnabled : ℚ
  collisionPlaneY : ℚ
  collisionBounce : ℚ
  collisionFriction : ℚ
  collisionDie : ℚ
  rotationSpeedMinX : ℚ
  rotationSpeedMaxX : ℚ
  rotationSpeedMinY : ℚ
  rotationSpeedMaxY : ℚ
  rotationSpeedMinZ : ℚ
  rotationSpeedMaxZ : ℚ

/-- TSL `mix(a, b, t) = a + (b − a)·t`. -/
def mixQ (a b t : ℚ) : ℚ := a + (b - a) * t

/-- `v.length()` with the environment's square root. -/
def length3 (sqrtA : ℚ → ℚ) (v : Vec3) : ℚ :=
  sqrtA (v.x * v.x + v.y * v.y + v.z * v.z)

/-- The friction easing chain (VFXParticles.tsx 1558–1585):
0 = linear, 1 = easeIn, 2 = easeOut, 3 = easeInOut. -/
def easedProgressQ (easingType p : ℚ) : ℚ :=
  if easingType < 1/2 then p
  else if easingType < 3/2 then p * p
  else if easingType < 5/2 then 1 - (1 - p) * (1 - p)
  else if p < 1/2 then 2 * p * p else 1 - (-2 * p + 2) ^ 2 / 2

/-- Legacy friction speed scale: `1 − mix(start, end, eased(progress))·0.9`
(VFXParticles.tsx 1586–1593). -/
def frictionSpeedScale (e : UpdateEnv) (progress : ℚ) : ℚ :=
  1 - mixQ e.frictionIntensityStart e.frictionIntensityEnd
    (easedProgressQ e.frictionEasingType progress) * (9/10)

/-- The finite-difference curl of the noise field at the particle's scaled
position (VFXParticles.tsx 1603–1633). -/
def curlVec (e : UpdateEnv) (pos : Vec3) : Vec3 :=
  let noisePos : Vec3 := (pos.mulS e.turbulenceFrequency).add
    ⟨e.turbulenceTime, e.turbulenceTime * (7/10), e.turbulenceTime * (13/10)⟩
  let eps : ℚ := 1/100
  let nPosX := e.noiseVec3 (noisePos.add ⟨eps, 0, 0⟩)
  let nNegX := e.noiseVec3 (noisePos.sub ⟨eps, 0, 0⟩)
  let nPosY := e.noiseVec3 (noisePos.add ⟨0, eps, 0⟩)
  let nNegY := e.noiseVec3 (noisePos.sub ⟨0, eps, 0⟩)
  let nPosZ := e.noiseVec3 (noisePos.add ⟨0, 0, eps⟩)
  let nNegZ := e.noiseVec3 (noisePos.sub ⟨0, 0, eps⟩)
  let dFx_dy := (nPosY.x - nNegY.x) / (eps * 2)
  let dFx_dz := (nPosZ.x - nNegZ.x) / (eps * 2)
  let dFy_dx := (nPosX.y - nNegX.y) / (eps * 2)
  let dFy_dz := (nPosZ.y - nNegZ.y) / (eps * 2)
  let dFz_dx := (nPosX.z - nNegX.z) / (eps * 2)
  let dFz_dy := (nPosY.z - nNegY.z) / (eps * 2)
  ⟨dFz_dy - dFy_dz, dFx_dz - dFz_dx, dFy_dx - dFx_dy⟩

/-- One attractor's contribution to the velocity (VFXParticles.tsx
1644–1681): linear or inverse-square falloff, point pull or vortex swirl. -/
def applyAttractorForce (e : UpdateEnv) (a : AttractorSlot) (pos vel : Vec3) :
    Vec3 :=
  if |a.strength| > 1/1000 then
    let toAttractor := a.pos.sub pos
    let dist := length3 e.sqrtA toAttractor
    let safeDist := max dist (1/100)
    let direction := toAttractor.divS safeDist
    let falloff :=
      if a.radius > 1/1000 then max (1 - dist / a.radius) 0
      else 1 / (safeDist * safeDist + 1)
    let force :=
      if a.kind < 1/2 then (direction.mulS a.strength).mulS falloff
      else
        let tangent := Vec3.cross a.axis toAttractor
        let tangentLen := max (length3 e.sqrtA tangent) (1/1000)
        ((tangent.divS tangentLen).mulS a.strength).mulS falloff
    vel.add (force.mulS e.deltaTime)
  else vel

/-- The unrolled attractor chain guarded by `attractorCount`
(VFXParticles.tsx 1684–1719). -/
def applyAttractors (e : UpdateEnv) (pos vel : Vec3) : Vec3 :=
  let v0 := if e.attractorCount > 0 then
    applyAttractorForce e (e.attractor 0) pos vel else vel
  let v1 := if e.attractorCount > 1 then
    applyAttractorForce e (e.attractor 1) pos v0 else v0
  let v2 := if e.attractorCount > 2 then
    applyAttractorForce e (e.attractor 2) pos v1 else v1
  if e.attractorCount > 3 then applyAttractorForce e (e.attractor 3) pos v2
  else v2

/-- The body of the live branch of the update kernel, through the lifetime
decrement but before the final dead clamp (VFXParticles.tsx 1531–1787):
gravity, speed scale, turbulence, attractors, position integration, plane
collision, rotation, lifetime decay. -/
def updateParticleBody (e : UpdateEnv) (idx : ℕ) (p : Particle) : Particle :=
  let gravityMultiplier := 1 + p.size * e.sizeBasedGravity
  let vel1 := p.vel.add ((e.gravity.mulS e.deltaTime).mulS gravityMultiplier)
  let progress := 1 - p.lifetime
  let speedScale :=
    if e.velocityCurveEnabled > 1/2 then e.curveVelocity progress
    else frictionSpeedScale e progress
  let vel2 :=
    if e.turbulenceIntensity > 1/1000 then
      vel1.add ((curlVec e p.pos).mulS e.turbulenceIntensity |>.mulS e.deltaTime)
    else vel1
  let vel3 := applyAttractors e p.pos vel2
  let pos1 := p.pos.add ((vel3.mulS e.deltaTime).mulS speedScale)
  let collided := e.collisionEnabled > 1/2 ∧ pos1.y < e.collisionPlaneY
  let pos2 : Vec3 :=
    if collided then
      if e.collisionDie > 1/2 then { pos1 with y := -1000 }
      else { pos1 with y := e.collisionPlaneY }
    else pos1
  let vel4 : Vec3 :=
    if collided ∧ ¬(e.collisionDie > 1/2) then
      ⟨vel3.x * e.collisionFriction, |vel3.y| * e.collisionBounce,
       vel3.z * e.collisionFriction⟩
    else vel3
  let life1 : ℚ :=
    if collided ∧ e.collisionDie > 1/2 then 0 else p.lifetime
  let rotSpeed : Vec3 :=
    ⟨mixQ e.rotationSpeedMinX e.rotationSpeedMaxX (e.hashF ((idx : ℚ) + 8888)),
     mixQ e.rotationSpeedMinY e.rotationSpeedMaxY (e.hashF ((idx : ℚ) + 9999)),
     mixQ e.rotationSpeedMinZ e.rotationSpeedMaxZ (e.hashF ((idx : ℚ) + 10101))⟩
  let rotSpeedMultiplier :=
    if e.rotationSpeedCurveEnabled > 1/2 then e.curveRotationSpeed progress
    else 1
  let rot1 := p.rotation.add ((rotSpeed.mulS e.deltaTime).mulS rotSpeedMultiplier)
  let life2 := life1 - p.fadeRate * e.deltaTime
  { pos := pos2, vel := vel4, lifetime := life2, fadeRate := p.fadeRate,
    size := p.size, rotation := rot1 }

/-- The update kernel for one slot: dead slots (`lifetime ≤ 0`) are
untouched; a slot whose decremented lifetime reaches `≤ 0` is clamped to 0
and moved to the sentinel `y = −1000`. -/
def updateParticle (e : UpdateEnv) (idx : ℕ) (p : Particle) : Particle :=
  if 0 < p.lifetime then
    if (updateParticleBody e idx p).lifetime ≤ 0 then
      { updateParticleBody e idx p with
        lifetime := 0
        pos := { (updateParticleBody e idx p).pos with y := -1000 } }
    else updateParticleBody e idx p
  else p

/-- The update environment of the default configuration with every optional
physics stage off: zero gravity, no velocity curve, friction intensity 0,
no turbulence, no attractors, no collision, zero rotation-speed ranges
(the `createUniforms` defaults). -/
def defaultPhysicsEnv (dt : ℚ) : UpdateEnv :=
  { deltaTime := dt, gravity := Vec3.zero, sizeBasedGravity := 0,
    velocityCurveEnabled := 0, curveVelocity := fun _ => 0,
    rotationSpeedCurveEnabled := 0, curveRotationSpeed := fun _ => 0,
    frictionEasingType := 0, frictionIntensityStart := 0,
    frictionIntensityEnd := 0,
    turbulenceIntensity := 0, turbulenceFrequency := 1, turbulenceTime := 0,
    noiseVec3 := fun _ => Vec3.zero,
    attractorCount := 0,
    attractor := fun _ => ⟨Vec3.zero, 0, 1, 0, ⟨0, 1, 0⟩⟩,
    sqrtA := fun _ => 0, hashF := fun _ => 0,
    collisionEnabled := 0, collisionPlaneY := 0, collisionBounce := 3/10,
    collisionFriction := 8/10, collisionDie := 0,
    rotationSpeedMinX := 0, rotationSpeedMaxX := 0, rotationSpeedMinY := 0,
    rotationSpeedMaxY := 0, rotationSpeedMinZ := 0, rotationSpeedMaxZ := 0 }

/-! ## Range and rotation normalisation (utils.ts) -/

/-- A scalar-or-array range input (`number | [number, number]`). -/
inductive RangeInput where
  | num : ℚ → RangeInput
  | arr : List ℚ → RangeInput

/-- `toRange` (utils.ts): `null`/`undefined` → default, a scalar `v` →
`[v, v]`, a 2-element array as-is, any other array collapses to
`[v0, v0]`. -/
def toRange (value : Option RangeInput) (dflt : ℚ × ℚ) : ℚ × ℚ :=
  match value with
  | none => dflt
  | some (.num v) => (v, v)
  | some (.arr l) =>
    if l.length = 2 then (l.getD 0 0, l.getD 1 0) else (l.getD 0 0, l.getD 0 0)

/-- A per-axis range triple `[[minX,maxX],[minY,maxY],[minZ,maxZ]]`. -/
abbrev Rot3D := (ℚ × ℚ) × (ℚ × ℚ) × (ℚ × ℚ)

/-- A rotation/direction input: scalar, `[min, max]`, or full 3-axis form. -/
inductive Rot3DInput where
  | num : ℚ → Rot3DInput
  | pair : ℚ → ℚ → Rot3DInput
  | triple : (ℚ × ℚ) → (ℚ × ℚ) → (ℚ × ℚ) → Rot3DInput

/-- `toRotation3D` (utils.ts): scalar broadcast, pair broadcast, or the
explicit 3×2 structure. -/
def toRotation3D : Option Rot3DInput → Rot3D
  | none => ((0, 0), (0, 0), (0, 0))
  | some (.num v) => ((v, v), (v, v), (v, v))
  | some (.pair a b) => ((a, b), (a, b), (a, b))
  | some (.triple ax ay az) => (ax, ay, az)

/-- `isNonDefaultRotation` (utils.ts): any axis has a non-zero range. -/
def isNonDefaultRotation : Option Rot3DInput → Bool
  | none => false
  | some (.num v) => decide (v ≠ 0)
  | some (.pair a b) => decide (a ≠ 0) || decide (b ≠ 0)
  | some (.triple ax ay az) =>
    (decide (ax.1 ≠ 0) || decide (ax.2 ≠ 0)) ||
    (decide (ay.1 ≠ 0) || decide (ay.2 ≠ 0)) ||
    (decide (az.1 ≠ 0) || decide (az.2 ≠ 0))

/-- The 8-slot colour padding of normalizeProps / applySpawnOverrides:
`while (colors.length < 8) colors.push(colors[colors.length-1] || white)`.
Takes the already-truncated (`slice(0, 8)`) RGB list. -/
def pad8 (l : List Vec3) : List Vec3 :=
  l ++ List.replicate (8 - l.length) (l.getLastD ⟨1, 1, 1⟩)

/-- `THREE.Vector3.normalize`: divide by the length, or by 1 when the
length is zero. -/
def normalize3 (sq : ℚ → ℚ) (v : Vec3) : Vec3 :=
  let len := sq (v.x * v.x + v.y * v.y + v.z * v.z)
  v.divS (if len = 0 then 1 else len)

/-! ## Spawn overrides (applySpawnOverrides, uniforms.ts 509–659)

Each recognised override field is translated, in source order, into the
cell writes it performs; `setUniform` saves the previous cell value before
each write, and the returned restore closure replays the saved values.
Hex colour strings are modelled by their already-parsed RGB triples. -/

/-- The emit-time override record (the fields `applySpawnOverrides`
recognises); colour lists carry the `hexToRgb` images of the hex strings. -/
structure SpawnOverrides where
  size : Option RangeInput := none
  speed : Option RangeInput := none
  lifetime : Option RangeInput := none
  direction : Option Rot3DInput := none
  startPosition : Option Rot3DInput := none
  gravity : Option Vec3 := none
  colorStart : Option (List Vec3) := none
  colorEnd : Option (List Vec3) := none
  rotation : Option Rot3DInput := none
  emitterShape : Option ℚ := none
  emitterRadius : Option RangeInput := none
  emitterAngle : Option ℚ := none
  emitterHeight : Option RangeInput := none
  emitterSurfaceOnly : Option Bool := none
  emitterDirection : Option Vec3 := none

/-- The writes of one optional override group. -/
def optWrites {α : Type} : Option α → (α → Writes) → Writes
  | none, _ => []
  | some a, f => f a

/-- The 24 palette-component writes of a colour override
(`colors.forEach(... setRGB ...)` over the padded 8-slot list). -/
def colorComponentWrites (mk : Fin 8 → Fin 3 → UKey) (cs : List Vec3) :
    Writes :=
  (List.finRange 8).flatMap (fun i =>
    let c := cs.getD i ⟨1, 1, 1⟩
    [(mk i 0, c.x), (mk i 1, c.y), (mk i 2, c.z)])

/-- All cell writes performed by `applySpawnOverrides`, in source order. -/
def overrideWrites (sq : ℚ → ℚ) (o : SpawnOverrides) : Writes :=
  optWrites o.size (fun v =>
    let r := toRange (some v) (1/10, 3/10)
    [(UKey.sizeMin, r.1), (UKey.sizeMax, r.2)]) ++
  optWrites o.speed (fun v =>
    let r := toRange (some v) (1/10, 1/10)
    [(UKey.speedMin, r.1), (UKey.speedMax, r.2)]) ++
  optWrites o.lifetime (fun v =>
    let r := toRange (some v) (1, 2)
    [(UKey.lifetimeMin, 1 / r.2), (UKey.lifetimeMax, 1 / r.1)]) ++
  optWrites o.direction (fun v =>
    let d := toRotation3D (some v)
    [(UKey.dirMinX, d.1.1), (UKey.dirMaxX, d.1.2),
     (UKey.dirMinY, d.2.1.1), (UKey.dirMaxY, d.2.1.2),
     (UKey.dirMinZ, d.2.2.1), (UKey.dirMaxZ, d.2.2.2)]) ++
  optWrites o.startPosition (fun v =>
    let d := toRotation3D (some v)
    [(UKey.startPosMinX, d.1.1), (UKey.startPosMaxX, d.1.2),
     (UKey.startPosMinY, d.2.1.1), (UKey.startPosMaxY, d.2.1.2),
     (UKey.startPosMinZ, d.2.2.1), (UKey.startPosMaxZ, d.2.2.2)]) ++
  optWrites o.gravity (fun v =>
    [(UKey.gravityX, v.x), (UKey.gravityY, v.y), (UKey.gravityZ, v.z)]) ++
  optWrites o.colorStart (fun l =>
    (UKey.colorStartCount, (l.length : ℚ)) ::
      colorComponentWrites UKey.colorStart (pad8 (l.take 8))) ++
  optWrites o.colorEnd (fun l =>
    (UKey.colorEndCount, (l.length : ℚ)) ::
      colorComponentWrites UKey.colorEnd (pad8 (l.take 8))) ++
  optWrites o.rotation (fun v =>
    let d := toRotation3D (some v)
    [(UKey.rotationMinX, d.1.1), (UKey.rotationMaxX, d.1.2),
     (UKey.rotationMinY, d.2.1.1), (UKey.rotationMaxY, d.2.1.2),
     (UKey.rotationMinZ, d.2.2.1), (UKey.rotationMaxZ, d.2.2.2)]) ++
  optWrites o.emitterShape (fun v => [(UKey.emitterShapeType, v)]) ++
  optWrites o.emitterRadius (fun v =>
    let r := toRange (some v) (0, 1)
    [(UKey.emitterRadiusInner, r.1), (UKey.emitterRadiusOuter, r.2)]) ++
  optWrites o.emitterAngle (fun v => [(UKey.emitterAngle, v)]) ++
  optWrites o.emitterHeight (fun v =>
    let r := toRange (some v) (0, 1)
    [(UKey.emitterHeightMin, r.1), (UKey.emitterHeightMax, r.2)]) ++
  optWrites o.emitterSurfaceOnly (fun v =>
    [(UKey.emitterSurfaceOnly, if v then 1 else 0)]) ++
  optWrites o.emitterDirection (fun v =>
    let n := normalize3 sq v
    [(UKey.emitterDirX, n.x), (UKey.emitterDirY, n.y), (UKey.emitterDirZ, n.z)])

/-- The 24 palette-component keys of one colour family. -/
def colorPaletteKeys (mk : Fin 8 → Fin 3 → UKey) : List UKey :=
  (List.finRange 8).flatMap (fun i => [mk i 0, mk i 1, mk i 2])

/-- Every cell key `applySpawnOverrides` can touch, grouped in source
order. -/
def masterOverrideKeys : List UKey :=
  [UKey.sizeMin, UKey.sizeMax] ++
  [UKey.speedMin, UKey.speedMax] ++
  [UKey.lifetimeMin, UKey.lifetimeMax] ++
  [UKey.dirMinX, UKey.dirMaxX, UKey.dirMinY, UKey.dirMaxY,
   UKey.dirMinZ, UKey.dirMaxZ] ++
  [UKey.startPosMinX, UKey.startPosMaxX, UKey.startPosMinY,
   UKey.startPosMaxY, UKey.startPosMinZ, UKey.startPosMaxZ] ++
  [UKey.gravityX, UKey.gravityY, UKey.gravityZ] ++
  (UKey.colorStartCount :: colorPaletteKeys UKey.colorStart) ++
  (UKey.colorEndCount :: colorPaletteKeys UKey.colorEnd) ++
  [UKey.rotationMinX, UKey.rotationMaxX, UKey.rotationMinY,
   UKey.rotationMaxY, UKey.rotationMinZ, UKey.rotationMaxZ] ++
  [UKey.emitterShapeType] ++
  [UKey.emitterRadiusInner, UKey.emitterRadiusOuter] ++
  [UKey.emitterAngle] ++
  [UKey.emitterHeightMin, UKey.emitterHeightMax] ++
  [UKey.emitterSurfaceOnly] ++
  [UKey.emitterDirX, UKey.emitterDirY, UKey.emitterDirZ]

/-! ## The spawn call (VFXParticleSystem.spawn, particle-system.ts 211–240) -/

/-- The spawn-batch descriptor cells: `spawnPosition`, `spawnIndexStart`,
`spawnIndexEnd`, `spawnSeed`. -/
def batchKeys : List UKey :=
  [UKey.spawnPositionX, UKey.spawnPositionY, UKey.spawnPositionZ,
   UKey.spawnIndexStart, UKey.spawnIndexEnd, UKey.spawnSeed]

/-- The batch-descriptor writes of one spawn call. -/
def batchWrites (x y z : ℚ) (startIdx endIdx : ℕ) (seed : ℚ) : Writes :=
  [(UKey.spawnPositionX, x), (UKey.spawnPositionY, y),
   (UKey.spawnPositionZ, z), (UKey.spawnIndexStart, (startIdx : ℚ)),
   (UKey.spawnIndexEnd, (endIdx : ℚ)), (UKey.spawnSeed, seed)]

/-- The observable state of a `VFXParticleSystem` relevant to `spawn`:
the `_initialized` flag, the renderer reference, the ring cursor, the
parameter store, and the log of uniform snapshots seen by the issued
spawn dispatches (the dispatch is assumed to snapshot its inputs at issue
time). -/
structure SpawnState where
  isInit : Bool
  hasRenderer : Bool
  nextIndex : ℕ
  maxParticles : ℕ
  uniforms : Uniforms
  dispatches : List Uniforms

/-- `VFXParticleSystem.spawn`: bail out unless initialised with a renderer;
apply the overrides (saving prior cell values); write the batch
descriptor; advance the cursor; issue the dispatch (snapshotting the
current store); then replay the saved values. -/
def spawnSys (st : SpawnState) (x y z : ℚ) (count : ℕ)
    (o : Option SpawnOverrides) (sq : ℚ → ℚ) (seed : ℚ) : SpawnState :=
  if !st.isInit || !st.hasRenderer then st
  else
    let ows := match o with
      | none => []
      | some ov => overrideWrites sq ov
    let saved := savedOf st.uniforms ows
    let u1 := applyWrites st.uniforms ows
    let startIdx := st.nextIndex
    let endIdx := (startIdx + count) % st.maxParticles
    let u2 := applyWrites u1 (batchWrites x y z startIdx endIdx seed)
    { st with uniforms := applyWrites u2 saved,
              nextIndex := endIdx,
              dispatches := st.dispatches ++ [u2] }

/-! ## Curve baking (curves.ts) -/

/-- An editable curve control point; `pos` is `none` when the point data is
malformed, handles are optional Bezier offsets. -/
structure CurvePoint where
  pos : Option (ℚ × ℚ)
  handleIn : Option (ℚ × ℚ) := none
  handleOut : Option (ℚ × ℚ) := none

/-- The placeholder produced by an out-of-bounds / malformed point access. -/
def dfltPoint : CurvePoint := ⟨none, none, none⟩

/-- An editable curve: its control-point list. -/
structure CurveData where
  points : List CurvePoint

/-- `evaluateBezierSegment` (curves.ts 27–57): cubic Bezier between `p0` and
`p1` with optional handle offsets. -/
def evaluateBezierSegment (t : ℚ) (p0 p1 : ℚ × ℚ)
    (h0Out h1In : Option (ℚ × ℚ)) : ℚ × ℚ :=
  let cp0 := p0
  let cp1 : ℚ × ℚ := (p0.1 + (h0Out.getD (0, 0)).1, p0.2 + (h0Out.getD (0, 0)).2)
  let cp2 : ℚ × ℚ := (p1.1 + (h1In.getD (0, 0)).1, p1.2 + (h1In.getD (0, 0)).2)
  let cp3 := p1
  let mt := 1 - t
  let mt2 := mt * mt
  let mt3 := mt2 * mt
  let t2 := t * t
  let t3 := t2 * t
  (mt3 * cp0.1 + 3 * mt2 * t * cp1.1 + 3 * mt * t2 * cp2.1 + t3 * cp3.1,
   mt3 * cp0.2 + 3 * mt2 * t * cp1.2 + 3 * mt * t2 * cp2.2 + t3 * cp3.2)

/-- The segment search of `sampleCurveAtX`: the first `i` whose valid
endpoints bracket `x`, defaulting to 0. -/
def findSegmentIdx (x : ℚ) (points : List CurvePoint) : ℕ :=
  ((List.range (points.length - 1)).find? (fun i =>
    match (points.getD i dfltPoint).pos, (points.getD (i + 1) dfltPoint).pos with
    | some p, some q => decide (p.1 ≤ x) && decide (x ≤ q.1)
    | _, _ => false)).getD 0

/-- The 20-iteration bisection for the Bezier parameter whose x-coordinate
matches, tolerance 1e-4 (curves.ts 87–105). -/
def curveBisect (x : ℚ) (p0 p1 : ℚ × ℚ) (h0Out h1In : Option (ℚ × ℚ)) :
    ℕ → ℚ → ℚ → ℚ → ℚ
  | 0, _, _, t => t
  | n + 1, tLow, tHigh, t =>
    let px := (evaluateBezierSegment t p0 p1 h0Out h1In).1
    if |px - x| < 1/10000 then t
    else if px < x then curveBisect x p0 p1 h0Out h1In n t tHigh ((t + tHigh) / 2)
    else curveBisect x p0 p1 h0Out h1In n tLow t ((tLow + t) / 2)

/-- `sampleCurveAtX` (curves.ts 60–117): degenerate inputs return `x`
(the code comment's "linear fallback"); otherwise locate the bracketing
segment, bisect for `t`, evaluate, and clamp to `[-0.5, 1.5]`. -/
def sampleCurveAtX (x : ℚ) (points : Option (List CurvePoint)) : ℚ :=
  match points with
  | none => x
  | some pts =>
    if pts.length < 2 then x
    else if ((pts.getD 0 dfltPoint).pos).isNone ||
        ((pts.getD (pts.length - 1) dfltPoint).pos).isNone then x
    else
      let segmentIdx := findSegmentIdx x pts
      let p0 := pts.getD segmentIdx dfltPoint
      let p1 := pts.getD (segmentIdx + 1) dfltPoint
      match p0.pos, p1.pos with
      | some q0, some q1 =>
        let t := curveBisect x q0 q1 p0.handleOut p1.handleIn 20 0 1 (1/2)
        let py := (evaluateBezierSegment t q0 q1 p0.handleOut p1.handleIn).2
        max (-(1/2)) (min (3/2) py)
      | _, _ => x

/-- `bakeCurveToArray` (curves.ts 120–161): degenerate curve data (absent,
fewer than two points, or malformed first/last point) bakes the default
linear fade `1 − i/(resolution−1)`; otherwise each sample is
`sampleCurveAtX (i/(resolution−1))`. -/
def bakeCurveToArray (curveData : Option CurveData) (resolution : ℕ) :
    List ℚ :=
  let lin := (List.range resolution).map
    (fun i : ℕ => 1 - (i : ℚ) / ((resolution : ℚ) - 1))
  match curveData with
  | none => lin
  | some cd =>
    if cd.points.length < 2 then lin
    else if ((cd.points.getD 0 dfltPoint).pos).isNone ||
        ((cd.points.getD (cd.points.length - 1) dfltPoint).pos).isNone then lin
    else (List.range resolution).map
      (fun i : ℕ => sampleCurveAtX ((i : ℚ) / ((resolution : ℚ) - 1)) (some cd.points))

/-- `CURVE_RESOLUTION` (constants): 256 samples per channel. -/
def CURVE_RESOLUTION : ℕ := 256

/-- The magic number of the `.bin` header ('VFX\0' as float32). -/
def CURVE_BIN_MAGIC : ℚ := 1178944512

/-- The interleaved RGBA table: sample `i` contributes
`[size[i], opacity[i], velocity[i], rotationSpeed[i]]`
(the `rgba[i*4+c]` loops of `createCombinedCurveTexture` and
`buildCurveTextureBin`). -/
def interleave4 (a b c d : List ℚ) : ℕ → List ℚ
  | 0 => []
  | n + 1 => interleave4 a b c d n ++ [a.getD n 0, b.getD n 0, c.getD n 0, d.getD n 0]

/-- The combined 256×4 channel table baked from four (possibly null)
curves. -/
def combinedCurveTable (s o v r : Option CurveData) : List ℚ :=
  interleave4 (bakeCurveToArray s CURVE_RESOLUTION)
    (bakeCurveToArray o CURVE_RESOLUTION)
    (bakeCurveToArray v CURVE_RESOLUTION)
    (bakeCurveToArray r CURVE_RESOLUTION) CURVE_RESOLUTION

/-- The channel-active bitmask: SIZE=1, OPACITY=2, VELOCITY=4,
ROTATION_SPEED=8, set for the non-null curves. -/
def curveChannelMask (s o v r : Option CurveData) : ℕ :=
  (if s.isSome then 1 else 0) ||| (if o.isSome then 2 else 0) |||
  (if v.isSome then 4 else 0) ||| (if r.isSome then 8 else 0)

/-- `buildCurveTextureBin` (curves.ts 242–275): 4-float header
`[magic, channelMask, 0, 0]` followed by the interleaved table. -/
def buildCurveTextureBin (s o v r : Option CurveData) : List ℚ :=
  CURVE_BIN_MAGIC :: ((curveChannelMask s o v r : ℕ) : ℚ) :: 0 :: 0 ::
    combinedCurveTable s o v r

/-- The parsing logic of `loadCurveTextureFromPath` (curves.ts 282–330)
applied to a fetched float buffer: new format by exact length and magic,
legacy header-less format by exact length (all channels active), anything
else a load error (`none`).  Returns `(activeChannels, rgba)`. -/
def loadCurveTextureBin (allFloats : List ℚ) : Option (ℚ × List ℚ) :=
  if allFloats.length = 4 + CURVE_RESOLUTION * 4 ∧
      allFloats.getD 0 0 = CURVE_BIN_MAGIC then
    some (allFloats.getD 1 0, allFloats.drop 4)
  else if allFloats.length = CURVE_RESOLUTION * 4 then
    some ((((1 ||| 2 ||| 4 ||| 8 : ℕ)) : ℚ), allFloats)
  else none

/-! ## Feature resolution and the recreation gate (storage.ts) -/

/-- `turbulence` prop shape. -/
structure TurbulenceConfig where
  intensity : ℚ
  frequency : Option ℚ := none
  speed : Option ℚ := none

/-- Attractor kind: `'point' | 'vortex'`. -/
inductive AttractorKind where
  | point
  | vortex
deriving DecidableEq

/-- One `attractors` list entry. -/
structure AttractorConfig where
  position : Option Vec3 := none
  strength : Option ℚ := none
  radius : Option ℚ := none
  kind : Option AttractorKind := none
  axis : Option Vec3 := none

/-- `collision` prop shape (`plane` holds the plane's y). -/
structure CollisionConfig where
  plane : Option ℚ := none
  bounce : Option ℚ := none
  friction : Option ℚ := none
  die : Option Bool := none
  sizeBasedGravity : Option ℚ := none

/-- The props `resolveFeatures` inspects (absent = `undefined`). -/
structure FeatureProps where
  colorStart : Option (List String) := none
  colorEnd : Option (List String) := none
  rotation : Option Rot3DInput := none
  rotationSpeed : Option Rot3DInput := none
  turbulence : Option TurbulenceConfig := none
  attractors : Option (List AttractorConfig) := none
  collision : Option CollisionConfig := none

/-- The feature flags (shaders/types), with the duplicated
`rotation`/`perParticleColor` aliases kept. -/
structure ShaderFeatures where
  needsPerParticleColor : Bool
  needsRotation : Bool
  turbulence : Bool
  attractors : Bool
  collision : Bool
  rotation : Bool
  perParticleColor : Bool
deriving DecidableEq

/-- `resolveFeatures` (storage.ts 16–61). -/
def resolveFeatures (p : FeatureProps) : ShaderFeatures :=
  let colorStart := p.colorStart.getD ["#ffffff"]
  let needsPerParticleColor := decide (colorStart.length > 1) || p.colorEnd.isSome
  let needsRotation :=
    isNonDefaultRotation p.rotation || isNonDefaultRotation p.rotationSpeed
  let hasTurbulence := match p.turbulence with
    | some t => decide (t.intensity > 0)
    | none => false
  let hasAttractors := match p.attractors with
    | some l => decide (l.length > 0)
    | none => false
  let hasCollision := p.collision.isSome
  { needsPerParticleColor := needsPerParticleColor
    needsRotation := needsRotation
    turbulence := hasTurbulence
    attractors := hasAttractors
    collision := hasCollision
    rotation := needsRotation
    perParticleColor := needsPerParticleColor }

/-- `STRUCTURAL_KEYS` (storage.ts 8–14). -/
def STRUCTURAL_KEYS : List String :=
  ["maxParticles", "lighting", "appearance", "shadow", "orientToDirection"]

/-- `needsRecreation` (storage.ts 67–90): a structural key changed, or any
of the five feature-flag comparisons differs. -/
def needsRecreation (currentFeatures : ShaderFeatures)
    (changedProps : List String) (mergedConfig : FeatureProps) : Bool :=
  if STRUCTURAL_KEYS.any (fun key => changedProps.contains key) then true
  else
    let newFeatures := resolveFeatures mergedConfig
    if newFeatures.turbulence != currentFeatures.turbulence then true
    else if newFeatures.attractors != currentFeatures.attractors then true
    else if newFeatures.collision != currentFeatures.collision then true
    else if newFeatures.needsRotation != currentFeatures.needsRotation then true
    else if newFeatures.needsPerParticleColor !=
        currentFeatures.needsPerParticleColor then true
    else false

/-! ## Emitter controller timer (EmitterController.update, emitter.ts 58–82) -/

/-- The controller options the timer logic reads. -/
structure EmitterTimerOptions where
  loop : Option Bool := none
  delay : Option ℚ := none

/-- The controller's timer state. -/
structure EmitterTimerState where
  isEmitting : Bool
  emitAccumulator : ℚ
  hasEmittedOnce : Bool
deriving DecidableEq

/-- `EmitterController.update`: the state transition together with whether
an emit (a `system.spawn` call) happened.  `hasSystem` models
`this.system?.spawn` being attached (`doEmit`'s success). -/
def emitterUpdate (opts : EmitterTimerOptions) (hasSystem : Bool)
    (s : EmitterTimerState) (dt : ℚ) : EmitterTimerState × Bool :=
  if !s.isEmitting then (s, false)
  else if !(opts.loop.getD true) && s.hasEmittedOnce then (s, false)
  else
    let delay := opts.delay.getD 0
    if delay ≤ 0 then
      let success := hasSystem
      ({ s with hasEmittedOnce := s.hasEmittedOnce || success }, success)
    else
      let acc := s.emitAccumulator + dt
      if acc ≥ delay then
        let success := hasSystem
        ({ s with emitAccumulator := acc - delay,
                  hasEmittedOnce := s.hasEmittedOnce || success }, success)
      else ({ s with emitAccumulator := acc }, false)

/-! ## Colour palette lookup (cpu-spawn.ts 267–303, utils.ts 232–263) -/

/-- The clamp of `getColor`: `min(max(Math.floor(idx), 0), 7)`. -/
def clampColorIdx (idx : ℚ) : ℤ := min (max ⌊idx⌋ 0) 7

/-- The storage cells of a spawned slot seen as one pool particle (the
buffers the integrator reads). -/
def slotToParticle (s : SpawnedSlot) : Particle :=
  { pos := s.pos, vel := s.vel, lifetime := s.lifetime,
    fadeRate := s.fadeRate, size := s.size,
    rotation := s.rotation.getD Vec3.zero }

/-- `getColor` (cpu-spawn.ts 292–303) over a palette with possibly missing
cells (`u[key]?.value`): clamp the index into `[0, 7]`, then read the cell
or fall back to white `[1, 1, 1]`. -/
def getColorOpt (palette : ℤ → Option Vec3) (idx : ℚ) : Vec3 :=
  match palette (clampColorIdx idx) with
  | some c => c
  | none => ⟨1, 1, 1⟩

/-- The palette-index pick of `cpuSpawn` (line 273) followed by `getColor`:
`Math.floor(rand * colorCount)` then the clamped lookup. -/
def cpuColorLookup (palette : ℤ → Option Vec3) (rand count : ℚ) : Vec3 :=
  getColorOpt palette ((⌊rand * count⌋ : ℤ) : ℚ)

/-- The palette exposed by a cell list, with JS index semantics: negative
or out-of-range indices read `undefined`. -/
def paletteOf (l : List Vec3) : ℤ → Option Vec3 :=
  fun i => if i < 0 then none else l.get? i.toNat

/-- The colour part of `normalizeProps` (utils.ts 232–263): the palette is
`slice(0, 8)` mapped through `hexToRgb` and padded to exactly 8 slots,
while the recorded active count is the raw list length. -/
def normalizeColorList (hexToRgb : String → Vec3) (colorStart : List String) :
    List Vec3 × ℕ :=
  (pad8 ((colorStart.take 8).map hexToRgb), colorStart.length)

lemma cpuSpawnCount_eq (N cursor count : ℕ) (_hN : 0 < N) (hc : cursor < N)
    (h1 : 0 < count) (h2 : count ≤ N) :
    cpuSpawnCount cursor (spawnEndIdx cursor count N) N = count := by
  unfold cpuSpawnCount spawnEndIdx
  rcases Nat.lt_or_ge (cursor + count) N with h | h
  · rw [Nat.mod_eq_of_lt h, if_pos (by omega)]
    omega
  · have hlt : cursor + count - N < N := by omega
    have hm : (cursor + count) % N = cursor + count - N := by
      rw [Nat.mod_eq_sub_mod h, Nat.mod_eq_of_lt hlt]
    rw [hm, if_neg (by omega)]
    omega

lemma spawnTouch_eq (N cursor count : ℕ) (hN : 0 < N) (hc : cursor < N)
    (h1 : 0 < count) (h2 : count ≤ N) :
    spawnTouch N cursor count =
      ((cursor + count) % N,
       (List.range count).map (fun j => (cursor + j) % N)) := by
  unfold spawnTouch cpuSpawnSlots
  rw [cpuSpawnCount_eq N cursor count hN hc h1 h2]
  rfl

/-- Concatenated touch list of a spawn sequence: consecutive indices mod `N`
starting at the initial cursor. -/
lemma spawnTouchSeq_eq (N : ℕ) (hN : 0 < N) :
    ∀ (counts : List ℕ) (cursor : ℕ), cursor < N →
      (∀ c ∈ counts, 0 < c ∧ c ≤ N) →
      spawnTouchSeq N cursor counts =
        (List.range counts.sum).map (fun j => (cursor + j) % N) := by
  intro counts
  induction counts with
  | nil => intro cursor _ _; simp [spawnTouchSeq]
  | cons c cs ih =>
    intro cursor hc hall
    obtain ⟨hc1, hc2⟩ := hall c (List.mem_cons_self c cs)
    have hcur' : spawnEndIdx cursor c N < N := Nat.mod_lt _ hN
    rw [spawnTouchSeq, spawnTouch_eq N cursor c hN hc hc1 hc2,
      ih (spawnEndIdx cursor c N) hcur'
        (fun x hx => hall x (List.mem_cons_of_mem c hx))]
    have hmod : ∀ j : ℕ, (spawnEndIdx cursor c N + j) % N = (cursor + (c + j)) % N := by
      intro j
      unfold spawnEndIdx
      rw [Nat.mod_add_mod]
      ring_nf
    simp only [List.sum_cons, List.range_add, List.map_append, List.map_map]
    congr 1
    apply List.map_congr_left
    intro j _
    simp only [Function.comp_apply]
    rw [hmod j]

/-- The `N` consecutive indices mod `N` starting anywhere are a permutation
of all slots. -/
lemma range_mod_perm (N cursor : ℕ) (hN : 0 < N) :
    ((List.range N).map (fun j => (cursor + j) % N)).Perm (List.range N) := by
  have hnodup : ((List.range N).map (fun j => (cursor + j) % N)).Nodup := by
    refine List.Nodup.map_on ?_ (List.nodup_range N)
    intro i hi j hj hij
    simp only [List.mem_range] at hi hj
    have hmod : i % N = j % N := Nat.ModEq.add_left_cancel' cursor hij
    rwa [Nat.mod_eq_of_lt hi, Nat.mod_eq_of_lt hj] at hmod
  refine (List.perm_ext_iff_of_nodup hnodup (List.nodup_range N)).mpr ?_
  intro a
  simp only [List.mem_map, List.mem_range]
  constructor
  · rintro ⟨j, _, rfl⟩
    exact Nat.mod_lt _ hN
  · intro ha
    refine ⟨(a + N - cursor % N) % N, Nat.mod_lt _ hN, ?_⟩
    have hr := Nat.mod_add_div cursor N
    have hrN : cursor % N < N := Nat.mod_lt _ hN
    have hexp : N * (cursor / N + 1) = N * (cursor / N) + N := by ring
    have key : cursor + (a + N - cursor % N) = a + N * (cursor / N + 1) := by omega
    rw [Nat.add_mod_mod, key, Nat.add_mul_mod_self_left, Nat.mod_eq_of_lt ha]

/-! ### Save/restore of the parameter store -/

lemma uset_apply_self (u : Uniforms) (k : UKey) (v : ℚ) : uset u k v k = v := by
  simp [uset]

lemma uset_apply_ne (u : Uniforms) (k : UKey) (v : ℚ) {k' : UKey}
    (h : k' ≠ k) : uset u k v k' = u k' := by
  simp [uset, h]

lemma uset_value_self (u : Uniforms) (k : UKey) : uset u k (u k) = u := by
  funext q
  by_cases h : q = k <;> simp [uset, h]

lemma uset_uset_same (u : Uniforms) (k : UKey) (v w : ℚ) :
    uset (uset u k v) k w = uset u k w := by
  funext q
  by_cases h : q = k <;> simp [uset, h]

lemma uset_comm (u : Uniforms) {k k' : UKey} (v v' : ℚ) (h : k ≠ k') :
    uset (uset u k v) k' v' = uset (uset u k' v') k v := by
  funext q
  by_cases h1 : q = k'
  · subst h1
    rw [uset_apply_self, uset_apply_ne _ _ _ (fun hq => h hq.symm),
      uset_apply_self]
  · by_cases h2 : q = k
    · subst h2
      rw [uset_apply_ne _ _ _ h1, uset_apply_self, uset_apply_self]
    · rw [uset_apply_ne _ _ _ h1, uset_apply_ne _ _ _ h2,
        uset_apply_ne _ _ _ h2, uset_apply_ne _ _ _ h1]

lemma keysOf_cons (p : UKey × ℚ) (ws : Writes) :
    keysOf (p :: ws) = p.1 :: keysOf ws := rfl

lemma keysOf_append (a b : Writes) : keysOf (a ++ b) = keysOf a ++ keysOf b :=
  List.map_append _ _ _

lemma applyWrites_not_mem (ws : Writes) :
    ∀ (u : Uniforms) (k : UKey), k ∉ keysOf ws → applyWrites u ws k = u k := by
  induction ws with
  | nil => intro u k _; rfl
  | cons p ws ih =>
    intro u k hk
    obtain ⟨k0, v0⟩ := p
    rw [keysOf_cons, List.mem_cons, not_or] at hk
    rw [applyWrites, ih _ _ hk.2, uset_apply_ne _ _ _ hk.1]

lemma applyWrites_uset_comm (ws : Writes) :
    ∀ (u : Uniforms) (k : UKey) (v : ℚ), k ∉ keysOf ws →
      applyWrites (uset u k v) ws = uset (applyWrites u ws) k v := by
  induction ws with
  | nil => intro u k v _; rfl
  | cons p ws ih =>
    intro u k v hk
    obtain ⟨k0, v0⟩ := p
    rw [keysOf_cons, List.mem_cons, not_or] at hk
    rw [applyWrites, uset_comm _ _ _ hk.1, ih _ _ _ hk.2]
    rfl

lemma savedOf_keys (ws : Writes) :
    ∀ u : Uniforms, keysOf (savedOf u ws) = keysOf ws := by
  induction ws with
  | nil => intro u; rfl
  | cons p ws ih =>
    intro u
    obtain ⟨k0, v0⟩ := p
    rw [savedOf, keysOf_cons, keysOf_cons, ih]

lemma restore_applyWrites (ws : Writes) :
    ∀ u : Uniforms, (keysOf ws).Nodup →
      applyWrites (applyWrites u ws) (savedOf u ws) = u := by
  induction ws with
  | nil => intro u _; rfl
  | cons p ws ih =>
    intro u hnd
    obtain ⟨k, v⟩ := p
    rw [keysOf_cons, List.nodup_cons] at hnd
    rw [savedOf, applyWrites, applyWrites,
      applyWrites_uset_comm _ _ _ _ (by rw [savedOf_keys]; exact hnd.1),
      ih _ hnd.2, uset_uset_same, uset_value_self]

lemma applyWrites_mem_congr (ws : Writes) :
    ∀ (u u' : Uniforms) (k : UKey), k ∈ keysOf ws →
      applyWrites u ws k = applyWrites u' ws k := by
  induction ws with
  | nil => intro u u' k hk; cases hk
  | cons p ws ih =>
    intro u u' k hk
    obtain ⟨k0, v0⟩ := p
    by_cases hmem : k ∈ keysOf ws
    · rw [applyWrites, applyWrites, ih _ _ _ hmem]
    · rw [keysOf_cons, List.mem_cons] at hk
      rcases hk with hk | hk
      · subst hk
        rw [applyWrites, applyWrites, applyWrites_not_mem _ _ _ hmem,
          applyWrites_not_mem _ _ _ hmem, uset_apply_self, uset_apply_self]
      · exact absurd hk hmem

lemma applyWrites_comm_disjoint (ws1 : Writes) :
    ∀ (u : Uniforms) (ws2 : Writes), (keysOf ws1).Disjoint (keysOf ws2) →
      applyWrites (applyWrites u ws1) ws2 =
        applyWrites (applyWrites u ws2) ws1 := by
  induction ws1 with
  | nil => intro u ws2 _; rfl
  | cons p ws1 ih =>
    intro u ws2 hd
    obtain ⟨k, v⟩ := p
    have hk : k ∉ keysOf ws2 := hd (by rw [keysOf_cons]; exact List.mem_cons_self _ _)
    have hd' : (keysOf ws1).Disjoint (keysOf ws2) := fun a ha =>
      hd (by rw [keysOf_cons]; exact List.mem_cons_of_mem _ ha)
    rw [applyWrites, ih _ _ hd', applyWrites_uset_comm _ _ _ _ hk]
    rfl

lemma applyWrites_ext_off (bs os : Writes) (u u' : Uniforms)
    (h : ∀ k, k ∉ keysOf bs → u k = u' k) :
    applyWrites (applyWrites u os) bs = applyWrites (applyWrites u' os) bs := by
  funext q
  by_cases hq : q ∈ keysOf bs
  · exact applyWrites_mem_congr _ _ _ _ hq
  · rw [applyWrites_not_mem _ _ _ hq, applyWrites_not_mem _ _ _ hq]
    by_cases hq' : q ∈ keysOf os
    · exact applyWrites_mem_congr _ _ _ _ hq'
    · rw [applyWrites_not_mem _ _ _ hq', applyWrites_not_mem _ _ _ hq']
      exact h q hq

/-! ### Keys touched by `applySpawnOverrides` -/

lemma optWrites_keys_sublist {α : Type} (x : Option α) (f : α → Writes)
    (K : List UKey) (h : ∀ a, keysOf (f a) = K) :
    (keysOf (optWrites x f)).Sublist K := by
  cases x with
  | none => exact List.nil_sublist K
  | some a => rw [optWrites, h a]

lemma colorComponentWrites_keys (mk : Fin 8 → Fin 3 → UKey) (cs : List Vec3) :
    keysOf (colorComponentWrites mk cs) = colorPaletteKeys mk := by
  simp [keysOf, colorComponentWrites, colorPaletteKeys, List.map_flatMap]

lemma overrideWrites_keys_sublist (sq : ℚ → ℚ) (o : SpawnOverrides) :
    (keysOf (overrideWrites sq o)).Sublist masterOverrideKeys := by
  unfold overrideWrites masterOverrideKeys
  repeat rw [keysOf_append]
  repeat' apply List.Sublist.append
  all_goals exact optWrites_keys_sublist _ _ _ (fun a => rfl)

lemma masterOverrideKeys_nodup : masterOverrideKeys.Nodup := by decide

lemma overrideWrites_keys_nodup (sq : ℚ → ℚ) (o : SpawnOverrides) :
    (keysOf (overrideWrites sq o)).Nodup :=
  (masterOverrideKeys_nodup).sublist (overrideWrites_keys_sublist sq o)

lemma batchWrites_keys (x y z : ℚ) (s e : ℕ) (seed : ℚ) :
    keysOf (batchWrites x y z s e seed) = batchKeys := rfl

lemma master_batch_disjoint : masterOverrideKeys.Disjoint batchKeys := by
  have h : ∀ k ∈ masterOverrideKeys, k ∉ batchKeys := by decide
  intro a ha
  exact h a ha

/-- C1: a spawn of `count ∈ (0, N]` particles at cursor `c` fills exactly the
(possibly wrapping) slot range starting at `c` of length `count` — the slots
`(c + j) % N` for `j < count` — and sets the cursor to `(c + count) % N`;
with `N = 10`, three spawns of 4 give the cursor sequence 0→4→8→2 and the
third call fills slots [8, 9, 0, 1]; and any sequence of spawns totalling `N`
particles touches every slot exactly once (so none twice). -/
theorem spawn_ring_buffer_spec (N c count : ℕ) (counts : List ℕ)
    (hN : 0 < N) (hc : c < N) (h1 : 0 < count) (h2 : count ≤ N)
    (hcounts : ∀ x ∈ counts, 0 < x ∧ x ≤ N) (hsum : counts.sum = N) :
    spawnTouch N c count =
        ((c + count) % N, (List.range count).map (fun j => (c + j) % N)) ∧
      spawnCursorSeq 10 0 [4, 4, 4] = [4, 8, 2] ∧
      (spawnTouch 10 8 4).2 = [8, 9, 0, 1] ∧
      (spawnTouchSeq N c counts).Perm (List.range N) := by
  refine ⟨spawnTouch_eq N c count hN hc h1 h2, by decide, by decide, ?_⟩
  rw [spawnTouchSeq_eq N hN counts c hc hcounts, hsum]
  exact range_mod_perm N c hN

/-- Witness for `spawn_ring_buffer_spec` at `N = 10`, `c = 0`, `count = 4`,
spawn sequence `[4, 3, 3]`. -/
theorem spawn_ring_buffer_spec_witness :
    spawnTouch 10 0 4 =
        ((0 + 4) % 10, (List.range 4).map (fun j => (0 + j) % 10)) ∧
      spawnCursorSeq 10 0 [4, 4, 4] = [4, 8, 2] ∧
      (spawnTouch 10 8 4).2 = [8, 9, 0, 1] ∧
      (spawnTouchSeq 10 0 [4, 3, 3]).Perm (List.range 10) :=
  spawn_ring_buffer_spec 10 0 4 [4, 3, 3] (by decide) (by decide) (by decide)
    (by decide) (by decide) (by decide)

/-- With the guard passed, a spawn call's net effect on the store is the
batch-descriptor writes alone: the override writes are issued, snapshotted
by the dispatch, and then fully undone by the restore closure. -/
lemma spawnSys_reduce (st : SpawnState) (x y z : ℚ) (count : ℕ)
    (o : SpawnOverrides) (sq : ℚ → ℚ) (seed : ℚ)
    (hinit : st.isInit = true) (hrend : st.hasRenderer = true) :
    spawnSys st x y z count (some o) sq seed =
      { st with
        uniforms := applyWrites st.uniforms
          (batchWrites x y z st.nextIndex
            ((st.nextIndex + count) % st.maxParticles) seed),
        nextIndex := (st.nextIndex + count) % st.maxParticles,
        dispatches := st.dispatches ++
          [applyWrites (applyWrites st.uniforms (overrideWrites sq o))
            (batchWrites x y z st.nextIndex
              ((st.nextIndex + count) % st.maxParticles) seed)] } := by
  have hdisj : (keysOf (batchWrites x y z st.nextIndex
      ((st.nextIndex + count) % st.maxParticles) seed)).Disjoint
      (keysOf (savedOf st.uniforms (overrideWrites sq o))) := by
    rw [batchWrites_keys, savedOf_keys]
    intro a ha hb
    exact master_batch_disjoint ((overrideWrites_keys_sublist sq o).subset hb) ha
  have huni : applyWrites (applyWrites (applyWrites st.uniforms
      (overrideWrites sq o)) (batchWrites x y z st.nextIndex
        ((st.nextIndex + count) % st.maxParticles) seed))
      (savedOf st.uniforms (overrideWrites sq o)) =
      applyWrites st.uniforms (batchWrites x y z st.nextIndex
        ((st.nextIndex + count) % st.maxParticles) seed) := by
    rw [applyWrites_comm_disjoint _ _ _ hdisj,
      restore_applyWrites _ _ (overrideWrites_keys_nodup sq o)]
  simp only [spawnSys, hinit, hrend, Bool.not_true, Bool.or_self,
    Bool.false_eq_true, if_false, ite_false, huni]

/-- C3: overrides are applied before the fill dispatch is issued (the
dispatch snapshot is the overridden store plus the batch descriptor), every
overridden cell is restored before `spawn` returns (the post-call store is
the pre-call store plus only the batch-descriptor writes, so every cell
outside `spawnPosition`/`spawnIndexStart`/`spawnIndexEnd`/`spawnSeed` is
unchanged), and a second back-to-back spawn's dispatch snapshot is
computed from the pre-call store, independent of the first spawn's
overrides. -/
theorem spawn_override_save_restore (st : SpawnState) (x y z : ℚ)
    (count : ℕ) (o : SpawnOverrides) (sq : ℚ → ℚ) (seed : ℚ)
    (hinit : st.isInit = true) (hrend : st.hasRenderer = true) :
    ((spawnSys st x y z count (some o) sq seed).dispatches =
        st.dispatches ++
          [applyWrites (applyWrites st.uniforms (overrideWrites sq o))
            (batchWrites x y z st.nextIndex
              ((st.nextIndex + count) % st.maxParticles) seed)]) ∧
      ((spawnSys st x y z count (some o) sq seed).uniforms =
        applyWrites st.uniforms
          (batchWrites x y z st.nextIndex
            ((st.nextIndex + count) % st.maxParticles) seed)) ∧
      (∀ k : UKey, k ∉ batchKeys →
        (spawnSys st x y z count (some o) sq seed).uniforms k =
          st.uniforms k) ∧
      (∀ (o2 : SpawnOverrides) (x2 y2 z2 seed2 : ℚ) (count2 : ℕ),
        (spawnSys (spawnSys st x y z count (some o) sq seed) x2 y2 z2 count2
            (some o2) sq seed2).dispatches =
          (spawnSys st x y z count (some o) sq seed).dispatches ++
            [applyWrites (applyWrites st.uniforms (overrideWrites sq o2))
              (batchWrites x2 y2 z2
                (spawnSys st x y z count (some o) sq seed).nextIndex
                (((spawnSys st x y z count (some o) sq seed).nextIndex +
                  count2) % st.maxParticles) seed2)]) := by
  have hred := spawnSys_reduce st x y z count o sq seed hinit hrend
  have hoff : ∀ k : UKey, k ∉ batchKeys →
      (spawnSys st x y z count (some o) sq seed).uniforms k = st.uniforms k := by
    intro k hk
    rw [hred]
    exact applyWrites_not_mem _ _ _ (by rwa [batchWrites_keys])
  refine ⟨by rw [hred], by rw [hred], hoff, ?_⟩
  intro o2 x2 y2 z2 seed2 count2
  have hred2 := spawnSys_reduce (spawnSys st x y z count (some o) sq seed)
    x2 y2 z2 count2 o2 sq seed2 (by rw [hred]; exact hinit)
    (by rw [hred]; exact hrend)
  rw [hred2]
  have hmax : (spawnSys st x y z count (some o) sq seed).maxParticles =
      st.maxParticles := by rw [hred]
  rw [hmax]
  have h2 : applyWrites (applyWrites
      (spawnSys st x y z count (some o) sq seed).uniforms
      (overrideWrites sq o2))
      (batchWrites x2 y2 z2 (spawnSys st x y z count (some o) sq seed).nextIndex
        (((spawnSys st x y z count (some o) sq seed).nextIndex + count2) %
          st.maxParticles) seed2) =
      applyWrites (applyWrites st.uniforms (overrideWrites sq o2))
      (batchWrites x2 y2 z2 (spawnSys st x y z count (some o) sq seed).nextIndex
        (((spawnSys st x y z count (some o) sq seed).nextIndex + count2) %
          st.maxParticles) seed2) :=
    applyWrites_ext_off _ _ _ _ (fun k hk =>
      hoff k (by rwa [batchWrites_keys] at hk))
  rw [h2]

/-- Witness for `spawn_override_save_restore`: a concrete initialised
state with a size override. -/
theorem spawn_override_save_restore_witness :
    let st : SpawnState :=
      { isInit := true, hasRenderer := true, nextIndex := 0,
        maxParticles := 100, uniforms := fun _ => 0, dispatches := [] }
    let o : SpawnOverrides := { size := some (.num 2) }
    ((spawnSys st 0 0 0 4 (some o) (fun _ => 0) 7).dispatches =
        st.dispatches ++
          [applyWrites (applyWrites st.uniforms (overrideWrites (fun _ => 0) o))
            (batchWrites 0 0 0 st.nextIndex ((st.nextIndex + 4) % st.maxParticles) 7)]) ∧
      ((spawnSys st 0 0 0 4 (some o) (fun _ => 0) 7).uniforms =
        applyWrites st.uniforms
          (batchWrites 0 0 0 st.nextIndex ((st.nextIndex + 4) % st.maxParticles) 7)) ∧
      (∀ k : UKey, k ∉ batchKeys →
        (spawnSys st 0 0 0 4 (some o) (fun _ => 0) 7).uniforms k =
          st.uniforms k) ∧
      (∀ (o2 : SpawnOverrides) (x2 y2 z2 seed2 : ℚ) (count2 : ℕ),
        (spawnSys (spawnSys st 0 0 0 4 (some o) (fun _ => 0) 7) x2 y2 z2 count2
            (some o2) (fun _ => 0) seed2).dispatches =
          (spawnSys st 0 0 0 4 (some o) (fun _ => 0) 7).dispatches ++
            [applyWrites (applyWrites st.uniforms (overrideWrites (fun _ => 0) o2))
              (batchWrites x2 y2 z2
                (spawnSys st 0 0 0 4 (some o) (fun _ => 0) 7).nextIndex
                (((spawnSys st 0 0 0 4 (some o) (fun _ => 0) 7).nextIndex +
                  count2) % st.maxParticles) seed2)]) :=
  spawn_override_save_restore _ 0 0 0 4 _ (fun _ => 0) 7 rfl rfl

/-- C9: before `init` has completed (or with no renderer attached),
`spawn` is a complete no-op: the state is returned unchanged — no dispatch
is issued, the ring cursor does not advance, and no uniform cell
(the spawn-batch descriptor included) is modified. -/
theorem spawn_noop_before_init (st : SpawnState) (x y z : ℚ) (count : ℕ)
    (o : Option SpawnOverrides) (sq : ℚ → ℚ) (seed : ℚ)
    (h : st.isInit = false ∨ st.hasRenderer = false) :
    spawnSys st x y z count o sq seed = st ∧
      (spawnSys st x y z count o sq seed).dispatches = st.dispatches ∧
      (spawnSys st x y z count o sq seed).nextIndex = st.nextIndex ∧
      ∀ k : UKey, (spawnSys st x y z count o sq seed).uniforms k =
        st.uniforms k := by
  have heq : spawnSys st x y z count o sq seed = st := by
    rcases h with h | h <;> simp [spawnSys, h]
  exact ⟨heq, by rw [heq], by rw [heq], fun k => by rw [heq]⟩

/-- Witness for `spawn_noop_before_init`: an uninitialised state. -/
theorem spawn_noop_before_init_witness :
    let st : SpawnState :=
      { isInit := false, hasRenderer := true, nextIndex := 3,
        maxParticles := 10, uniforms := fun _ => 1, dispatches := [] }
    spawnSys st 0 0 0 5 none (fun _ => 0) 0 = st ∧
      (spawnSys st 0 0 0 5 none (fun _ => 0) 0).dispatches = st.dispatches ∧
      (spawnSys st 0 0 0 5 none (fun _ => 0) 0).nextIndex = st.nextIndex ∧
      ∀ k : UKey, (spawnSys st 0 0 0 5 none (fun _ => 0) 0).uniforms k =
        st.uniforms k :=
  spawn_noop_before_init _ 0 0 0 5 none (fun _ => 0) 0 (Or.inl rfl)

/-! ### The dead-particle sentinel (C2) and attract-to-centre (C6) -/

/-- C2 counterexample: the spec's biconditional
`lifetime ≤ 0 ⇔ position.y = −1000` fails on the code.  A live particle
(lifetime 1, fade rate 1/2) with velocity `(0, −1000, 0)` integrated for
`dt = 1` under the default physics lands exactly on `y = −1000` while its
lifetime stays `1/2 > 0`. -/
theorem dead_sentinel_iff_counterexample :
    ¬((updateParticle (defaultPhysicsEnv 1) 0
        { pos := ⟨0, 0, 0⟩, vel := ⟨0, -1000, 0⟩, lifetime := 1,
          fadeRate := 1/2, size := 0, rotation := Vec3.zero }).lifetime ≤ 0 ↔
      (updateParticle (defaultPhysicsEnv 1) 0
        { pos := ⟨0, 0, 0⟩, vel := ⟨0, -1000, 0⟩, lifetime := 1,
          fadeRate := 1/2, size := 0, rotation := Vec3.zero }).pos.y = -1000) := by
  norm_num [updateParticle, updateParticleBody, defaultPhysicsEnv,
    frictionSpeedScale, easedProgressQ, mixQ, applyAttractors, Vec3.add,
    Vec3.mulS, Vec3.neg, Vec3.zero]

/-- C2 (amended): after `cpuInit` every slot has lifetime exactly 0 and sits
at the sentinel `y = −1000`, and one update step preserves the forward
invariant `lifetime ≤ 0 → (lifetime = 0 ∧ position.y = −1000)`: the dying
branch (lifetime decrement crossing zero, or a collision kill followed by
the final clamp) sets lifetime to exactly 0 and `y` to −1000 in the same
frame, while dead slots are left untouched.  (The spec's converse direction
is refuted by `dead_sentinel_iff_counterexample`.) -/
theorem dead_sentinel_invariant (e : UpdateEnv) (idx : ℕ) (p : Particle)
    (hp : p.lifetime ≤ 0 → p.lifetime = 0 ∧ p.pos.y = -1000) :
    (∀ (N : ℕ) (i : Fin N), (cpuInitStorage N i).lifetime = 0 ∧
        (cpuInitStorage N i).pos.y = -1000) ∧
      ((updateParticle e idx p).lifetime ≤ 0 →
        (updateParticle e idx p).lifetime = 0 ∧
          (updateParticle e idx p).pos.y = -1000) := by
  refine ⟨fun N i => ⟨rfl, rfl⟩, ?_⟩
  unfold updateParticle
  by_cases h : 0 < p.lifetime
  · rw [if_pos h]
    by_cases hq : (updateParticleBody e idx p).lifetime ≤ 0
    · rw [if_pos hq]
      exact fun _ => ⟨rfl, rfl⟩
    · rw [if_neg hq]
      exact fun hle => absurd hle hq
  · rw [if_neg h]
    exact hp

/-- Witness for `dead_sentinel_invariant` at a freshly initialised slot. -/
theorem dead_sentinel_invariant_witness :
    (∀ (N : ℕ) (i : Fin N), (cpuInitStorage N i).lifetime = 0 ∧
        (cpuInitStorage N i).pos.y = -1000) ∧
      ((updateParticle (defaultPhysicsEnv (1/60)) 0 cpuInitSlot).lifetime ≤ 0 →
        (updateParticle (defaultPhysicsEnv (1/60)) 0 cpuInitSlot).lifetime = 0 ∧
          (updateParticle (defaultPhysicsEnv (1/60)) 0 cpuInitSlot).pos.y = -1000) :=
  dead_sentinel_invariant (defaultPhysicsEnv (1/60)) 0 cpuInitSlot
    (fun _ => ⟨rfl, rfl⟩)

/-- Under the default physics environment the update body reduces to pure
kinematics: position advances by `velocity·dt`, the velocity and rotation
are unchanged, and the lifetime decreases by `fadeRate·dt`. -/
lemma defaultPhysicsEnv_body (dt : ℚ) (idx : ℕ) (p : Particle) :
    updateParticleBody (defaultPhysicsEnv dt) idx p =
      { pos := p.pos.add (p.vel.mulS dt), vel := p.vel,
        lifetime := p.lifetime - p.fadeRate * dt, fadeRate := p.fadeRate,
        size := p.size, rotation := p.rotation } := by
  simp only [updateParticleBody, defaultPhysicsEnv, frictionSpeedScale,
    easedProgressQ, mixQ, applyAttractors, Vec3.add, Vec3.mulS, Vec3.neg,
    Vec3.zero]
  norm_num [Particle.mk.injEq, Vec3.mk.injEq]

/-- One live update step of an attract-to-centre particle under default
physics: the velocity `−o·f` is constant and the state stays on the ray
towards the spawn point, parametrised by the remaining lifetime. -/
lemma attract_step (spawn o : Vec3) (f l s : ℚ) (rot : Vec3) (dt : ℚ)
    (idx : ℕ) (hl : 0 < l) (halive : 0 < l - f * dt) :
    updateParticle (defaultPhysicsEnv dt) idx
      { pos := spawn.add (o.mulS l), vel := o.neg.mulS f, lifetime := l,
        fadeRate := f, size := s, rotation := rot } =
      { pos := spawn.add (o.mulS (l - f * dt)), vel := o.neg.mulS f,
        lifetime := l - f * dt, fadeRate := f, size := s, rotation := rot } := by
  simp only [updateParticle, defaultPhysicsEnv_body]
  rw [if_pos hl, if_neg (not_le.mpr halive)]
  simp only [Vec3.add, Vec3.mulS, Vec3.neg, Particle.mk.injEq, Vec3.mk.injEq]
  and_intros <;> first | trivial | ring

/-- Iterating live update steps under default physics: after time `Σ dts`
the attract-to-centre particle sits at `spawn + o·(l − f·Σ dts)`. -/
lemma attract_fold (spawn o : Vec3) (f s : ℚ) (rot : Vec3) (idx : ℕ) :
    ∀ (dts : List ℚ) (l : ℚ), 0 < f → (∀ x ∈ dts, 0 ≤ x) →
      0 < l - f * dts.sum →
      dts.foldl (fun p dt => updateParticle (defaultPhysicsEnv dt) idx p)
        { pos := spawn.add (o.mulS l), vel := o.neg.mulS f, lifetime := l,
          fadeRate := f, size := s, rotation := rot } =
      { pos := spawn.add (o.mulS (l - f * dts.sum)), vel := o.neg.mulS f,
        lifetime := l - f * dts.sum, fadeRate := f, size := s,
        rotation := rot } := by
  intro dts
  induction dts with
  | nil =>
    intro l _ _ _
    simp
  | cons dt rest ih =>
    intro l hf hnn halive
    have hrest : ∀ x ∈ rest, 0 ≤ x := fun x hx =>
      hnn x (List.mem_cons_of_mem _ hx)
    have hsum : 0 ≤ rest.sum := List.sum_nonneg hrest
    have hdt : 0 ≤ dt := hnn dt (List.mem_cons_self _ _)
    rw [List.sum_cons] at halive
    have hexp : f * (dt + rest.sum) = f * dt + f * rest.sum := by ring
    have hfr : 0 ≤ f * rest.sum := mul_nonneg hf.le hsum
    have hfd : 0 ≤ f * dt := mul_nonneg hf.le hdt
    have hl : 0 < l := by linarith
    have hstep : 0 < l - f * dt := by linarith
    rw [List.foldl_cons, attract_step spawn o f l s rot dt idx hl hstep,
      ih (l - f * dt) hf hrest (by rw [mul_comm f rest.sum] at hfr ⊢; linarith)]
    simp only [List.sum_cons, Particle.mk.injEq, Vec3.mk.injEq, Vec3.add,
      Vec3.mulS, Vec3.neg]
    and_intros <;> first | trivial | ring

/-- C6 counterexample: a particle spawned by `cpuSpawn` with
`attractToCenter` (BOX shape with fixed offset `(0, 3, 0)`, fade rate 1,
spawn point `(0, 0, 0)`) dies on the first `update(dt = 1)` — and at that
frame its position is the sentinel `(0, −1000, 0)`, a distance 1000 from
the spawn point, because the dead clamp overwrites `y` in the same frame
the lifetime reaches 0.  The claim's "position within tolerance of the
spawn point at the first frame lifetime ≤ 0" is therefore false of the
post-update buffers. -/
theorem attract_to_center_counterexample :
    let u0 : Uniforms := uset (uset (uset (uset (uset (uset (fun _ => 0)
      UKey.attractToCenter 1) UKey.lifetimeMin 1) UKey.lifetimeMax 1)
      UKey.emitterShapeType 1) UKey.startPosMinY 3) UKey.startPosMaxY 3
    let p0 := slotToParticle (cpuSpawnFill
      ⟨fun _ => 0, fun _ => 0, fun _ => 0, fun _ => 0, fun _ => 0, 0⟩
      (fun _ => 0) u0 false false 0)
    let q := updateParticle (defaultPhysicsEnv 1) 0 p0
    p0.pos = ⟨0, 3, 0⟩ ∧ p0.vel = ⟨0, -3, 0⟩ ∧ p0.lifetime = 1 ∧
      q.lifetime = 0 ∧ q.pos = ⟨0, -1000, 0⟩ ∧ ¬(|q.pos.y - 0| ≤ 1) := by
  simp +decide only [cpuSpawnFill, cpuShapeOffset, cpuRandomFade,
    slotToParticle, uset]
  norm_num [updateParticle, updateParticleBody, defaultPhysicsEnv,
    frictionSpeedScale, easedProgressQ, mixQ, applyAttractors, Vec3.add,
    Vec3.mulS, Vec3.neg, Vec3.zero, Vec3.mk.injEq]

/-- C6 (amended): a particle spawned with `attractToCenter` has initial
velocity `−shapeOffset·fadeRate` and position `spawnPoint + shapeOffset`;
under default physics its velocity stays constant, and at the first update
at which the lifetime reaches ≤ 0 the integrated position — before the
dead clamp — is `spawnPoint + shapeOffset·(1 − f·T)`, within
`|shapeOffset|·f·dt` of the spawn point componentwise (`dt` the last
frame's step).  The update then clamps the lifetime to 0 and moves `y` to
the sentinel −1000, leaving the `x` and `z` coordinates within that
tolerance of the spawn point. -/
theorem attract_to_center_convergence
    (m : MathEnv) (hashF : ℚ → ℚ) (u : Uniforms) (hr hc : Bool) (i idx : ℕ)
    (o spawnV : Vec3) (f : ℚ) (dts : List ℚ) (d : ℚ)
    (hattr : u UKey.attractToCenter > 1/2)
    (ho : cpuShapeOffset m hashF u i = o)
    (hfe : cpuRandomFade hashF u i = f)
    (hsp : spawnV = ⟨u UKey.spawnPositionX, u UKey.spawnPositionY,
      u UKey.spawnPositionZ⟩)
    (hf : 0 < f) (hd : 0 ≤ d) (hdts : ∀ x ∈ dts, 0 ≤ x)
    (halive : 0 < 1 - f * dts.sum)
    (hkill : 1 - f * (dts.sum + d) ≤ 0) :
    let p0 := slotToParticle (cpuSpawnFill m hashF u hr hc i)
    let pn := dts.foldl
      (fun p dt => updateParticle (defaultPhysicsEnv dt) idx p) p0
    let body := updateParticleBody (defaultPhysicsEnv d) idx pn
    let pend := updateParticle (defaultPhysicsEnv d) idx pn
    (p0.vel = o.neg.mulS f ∧ p0.pos = spawnV.add o ∧ p0.lifetime = 1 ∧
        p0.fadeRate = f) ∧
      body.pos = spawnV.add (o.mulS (1 - f * (dts.sum + d))) ∧
      (|body.pos.x - spawnV.x| ≤ |o.x| * (f * d) ∧
        |body.pos.y - spawnV.y| ≤ |o.y| * (f * d) ∧
        |body.pos.z - spawnV.z| ≤ |o.z| * (f * d)) ∧
      (pend.lifetime = 0 ∧ pend.pos.y = -1000 ∧
        pend.pos.x = body.pos.x ∧ pend.pos.z = body.pos.z) := by
  intro p0 pn body pend
  have hvel : p0.vel = o.neg.mulS f := by
    show (cpuSpawnFill m hashF u hr hc i).vel = o.neg.mulS f
    simp only [cpuSpawnFill, slotToParticle, if_pos hattr, ho, hfe,
      Vec3.neg, Vec3.mulS]
  have hpos : p0.pos = spawnV.add o := by
    show (cpuSpawnFill m hashF u hr hc i).pos = spawnV.add o
    simp only [cpuSpawnFill, slotToParticle, ho, hsp, Vec3.add]
  have hlife : p0.lifetime = 1 := rfl
  have hfade : p0.fadeRate = f := by
    show (cpuSpawnFill m hashF u hr hc i).fadeRate = f
    simp only [cpuSpawnFill, hfe]
  have hP0 : p0 =
      { pos := spawnV.add (o.mulS 1), vel := o.neg.mulS f, lifetime := 1,
        fadeRate := f, size := p0.size, rotation := p0.rotation } := by
    have hmul : o.mulS 1 = o := by simp [Vec3.mulS]
    conv_lhs => rw [show p0 =
      ⟨p0.pos, p0.vel, p0.lifetime, p0.fadeRate, p0.size, p0.rotation⟩ from rfl]
    rw [hpos, hvel, hlife, hfade, hmul]
  have hfold : pn =
      { pos := spawnV.add (o.mulS (1 - f * dts.sum)), vel := o.neg.mulS f,
        lifetime := 1 - f * dts.sum, fadeRate := f, size := p0.size,
        rotation := p0.rotation } := by
    show dts.foldl (fun p dt => updateParticle (defaultPhysicsEnv dt) idx p)
      p0 = _
    rw [hP0]
    exact attract_fold spawnV o f p0.size p0.rotation idx dts 1 hf hdts halive
  have hT : f * (dts.sum + d) = f * dts.sum + f * d := by ring
  have hfd : 0 ≤ f * d := mul_nonneg hf.le hd
  have hbody : body.pos = spawnV.add (o.mulS (1 - f * (dts.sum + d))) ∧
      body.lifetime = 1 - f * (dts.sum + d) := by
    show (updateParticleBody (defaultPhysicsEnv d) idx pn).pos = _ ∧
      (updateParticleBody (defaultPhysicsEnv d) idx pn).lifetime = _
    rw [hfold, defaultPhysicsEnv_body]
    constructor
    · simp only [Vec3.add, Vec3.mulS, Vec3.neg, Vec3.mk.injEq]
      refine ⟨by ring, by ring, by ring⟩
    · show 1 - f * dts.sum - f * d = 1 - f * (dts.sum + d)
      ring
  have habs : ∀ a : ℚ, |a * (1 - f * (dts.sum + d))| ≤ |a| * (f * d) := by
    intro a
    rw [abs_mul]
    refine mul_le_mul_of_nonneg_left ?_ (abs_nonneg a)
    rw [abs_le]
    constructor <;> linarith
  have hbounds : |body.pos.x - spawnV.x| ≤ |o.x| * (f * d) ∧
      |body.pos.y - spawnV.y| ≤ |o.y| * (f * d) ∧
      |body.pos.z - spawnV.z| ≤ |o.z| * (f * d) := by
    rw [hbody.1]
    simp only [Vec3.add, Vec3.mulS]
    refine ⟨?_, ?_, ?_⟩ <;>
      [skip; skip; skip] <;>
      · rw [show ∀ a b : ℚ, a + b - a = b from fun a b => by ring]
        exact habs _
  have hpend : pend =
      { body with
        lifetime := 0
        pos := { body.pos with y := -1000 } } := by
    show updateParticle (defaultPhysicsEnv d) idx pn = _
    rw [updateParticle, if_pos (by rw [hfold]; exact halive),
      if_pos (by rw [hbody.2]; exact hkill)]
  refine ⟨⟨hvel, hpos, hlife, hfade⟩, hbody.1, hbounds, ?_, ?_, ?_, ?_⟩
  · rw [hpend]
  · rw [hpend]
  · rw [hpend]
  · rw [hpend]

/-- Witness for `attract_to_center_convergence`: every uniform 1 (BOX shape
with offset `(1, 1, 1)`, fade rate 1), one update of `dt = 1`. -/
theorem attract_to_center_convergence_witness :
    let m : MathEnv := ⟨fun _ => 0, fun _ => 0, fun _ => 0, fun _ => 0,
      fun _ => 0, 0⟩
    let u : Uniforms := fun _ => 1
    let p0 := slotToParticle (cpuSpawnFill m (fun _ => 0) u false false 0)
    let pn := ([] : List ℚ).foldl
      (fun p dt => updateParticle (defaultPhysicsEnv dt) 0 p) p0
    let body := updateParticleBody (defaultPhysicsEnv 1) 0 pn
    let pend := updateParticle (defaultPhysicsEnv 1) 0 pn
    (p0.vel = (Vec3.mk 1 1 1).neg.mulS 1 ∧
        p0.pos = (Vec3.mk 1 1 1).add ⟨1, 1, 1⟩ ∧ p0.lifetime = 1 ∧
        p0.fadeRate = 1) ∧
      body.pos = (Vec3.mk 1 1 1).add
        ((Vec3.mk 1 1 1).mulS (1 - 1 * (([] : List ℚ).sum + 1))) ∧
      (|body.pos.x - 1| ≤ |(1 : ℚ)| * (1 * 1) ∧
        |body.pos.y - 1| ≤ |(1 : ℚ)| * (1 * 1) ∧
        |body.pos.z - 1| ≤ |(1 : ℚ)| * (1 * 1)) ∧
      (pend.lifetime = 0 ∧ pend.pos.y = -1000 ∧
        pend.pos.x = body.pos.x ∧ pend.pos.z = body.pos.z) :=
  attract_to_center_convergence
    ⟨fun _ => 0, fun _ => 0, fun _ => 0, fun _ => 0, fun _ => 0, 0⟩
    (fun _ => 0) (fun _ => 1) false false 0 0 ⟨1, 1, 1⟩ ⟨1, 1, 1⟩ 1 [] 1
    one_half_lt_one
    (by norm_num [cpuShapeOffset, Vec3.mk.injEq])
    (by norm_num [cpuRandomFade])
    rfl
    one_pos
    zero_le_one
    (fun x hx => absurd hx (List.not_mem_nil x))
    (by norm_num)
    (by norm_num)

/-! ### Degenerate curves (C4) and the curve binary round-trip (C5) -/

/-- C4 counterexample: on degenerate input `sampleCurveAtX` returns `x`
itself (the code's comment calls it a "linear fallback", i.e. `y = x`), not
the default linear fade-out `1 − x`: at `x = 0` with an absent (or empty)
points list it returns 0, while the claim demands `1 − 0 = 1`. -/
theorem degenerate_curve_sample_counterexample :
    sampleCurveAtX 0 none = 0 ∧ sampleCurveAtX 0 (some []) = 0 ∧
      (0 : ℚ) ≠ 1 - 0 := by
  refine ⟨rfl, rfl, by norm_num⟩

/-- C4 (amended): for degenerate curve input — points list absent, fewer
than two points, or malformed first/last point data — `sampleCurveAtX x`
returns `x` (the identity), not `1 − x`; `bakeCurveToArray` performs its
own degenerate-input check (curve absent, fewer than two points, or
malformed first/last point) and returns the length-`resolution` linear
fade-out whose `i`-th entry is `1 − i/(resolution−1)`. -/
theorem degenerate_curve_behavior (x : ℚ) (pts : List CurvePoint)
    (cd : Option CurveData) (resolution : ℕ)
    (hdeg : pts.length < 2 ∨ (pts.getD 0 dfltPoint).pos = none ∨
      (pts.getD (pts.length - 1) dfltPoint).pos = none)
    (hdeg2 : cd = none ∨ ∃ c, cd = some c ∧ (c.points.length < 2 ∨
      (c.points.getD 0 dfltPoint).pos = none ∨
      (c.points.getD (c.points.length - 1) dfltPoint).pos = none)) :
    sampleCurveAtX x none = x ∧ sampleCurveAtX x (some pts) = x ∧
      bakeCurveToArray cd resolution = (List.range resolution).map
        (fun i : ℕ => 1 - (i : ℚ) / ((resolution : ℚ) - 1)) := by
  refine ⟨rfl, ?_, ?_⟩
  · simp only [sampleCurveAtX]
    by_cases hl : pts.length < 2
    · rw [if_pos hl]
    · rcases hdeg with h | h | h
      · exact absurd h hl
      · rw [if_neg hl, if_pos (by rw [h]; simp)]
      · rw [if_neg hl, if_pos (by rw [h]; simp)]
  · rcases hdeg2 with h | ⟨c, rfl, hc⟩
    · rw [h]
      rfl
    · simp only [bakeCurveToArray]
      by_cases hl : c.points.length < 2
      · rw [if_pos hl]
      · rcases hc with h | h | h
        · exact absurd h hl
        · rw [if_neg hl, if_pos (by rw [h]; simp)]
        · rw [if_neg hl, if_pos (by rw [h]; simp)]

/-- Witness for `degenerate_curve_behavior` at `x = 3`, an empty point
list, an absent curve, resolution 4. -/
theorem degenerate_curve_behavior_witness :
    sampleCurveAtX 3 none = 3 ∧ sampleCurveAtX 3 (some []) = 3 ∧
      bakeCurveToArray none 4 = (List.range 4).map
        (fun i : ℕ => 1 - (i : ℚ) / ((4 : ℚ) - 1)) :=
  degenerate_curve_behavior 3 [] none 4 (Or.inl (by decide)) (Or.inl rfl)

lemma bakeCurveToArray_length (cd : Option CurveData) (res : ℕ) :
    (bakeCurveToArray cd res).length = res := by
  rcases cd with _ | c
  · simp only [bakeCurveToArray, List.length_map, List.length_range]
  · simp only [bakeCurveToArray]
    split_ifs <;> simp only [List.length_map, List.length_range]

lemma interleave4_length (a b c d : List ℚ) :
    ∀ n, (interleave4 a b c d n).length = 4 * n := by
  intro n
  induction n with
  | zero => rfl
  | succ n ih => simp [interleave4, ih]; omega

lemma interleave4_getD (a b c d : List ℚ) :
    ∀ n i, i < n →
      (interleave4 a b c d n).getD (4 * i) 0 = a.getD i 0 ∧
      (interleave4 a b c d n).getD (4 * i + 1) 0 = b.getD i 0 ∧
      (interleave4 a b c d n).getD (4 * i + 2) 0 = c.getD i 0 ∧
      (interleave4 a b c d n).getD (4 * i + 3) 0 = d.getD i 0 := by
  intro n
  induction n with
  | zero => intro i hi; omega
  | succ n ih =>
    intro i hi
    rcases Nat.lt_or_ge i n with h | h
    · have hlen := interleave4_length a b c d n
      refine ⟨?_, ?_, ?_, ?_⟩ <;>
        · rw [interleave4, List.getD_append _ _ _ _ (by omega)]
          first
            | exact (ih i h).1
            | exact (ih i h).2.1
            | exact (ih i h).2.2.1
            | exact (ih i h).2.2.2
    · have hi' : i = n := by omega
      subst hi'
      have hlen := interleave4_length a b c d i
      refine ⟨?_, ?_, ?_, ?_⟩ <;>
        · rw [interleave4, List.getD_append_right _ _ _ _ (by omega)]
          rw [hlen]
          norm_num

/-- C5: serializing four (possibly null) curves with `buildCurveTextureBin`
and deserializing with the loader's parsing logic round-trips exactly: the
recovered table is the combined 256×4 baked table (channel `c` of sample
`i` at offset `4·i+c` equals the corresponding baked array), and the
decoded `activeChannels` bitmask has its SIZE=1 / OPACITY=2 / VELOCITY=4 /
ROTATION_SPEED=8 bit set exactly when the corresponding curve was
non-null. -/
theorem curve_bin_round_trip (s o v r : Option CurveData) :
    loadCurveTextureBin (buildCurveTextureBin s o v r) =
        some (((curveChannelMask s o v r : ℕ) : ℚ),
          combinedCurveTable s o v r) ∧
      (∀ i, i < CURVE_RESOLUTION →
        (combinedCurveTable s o v r).getD (4 * i) 0 =
            (bakeCurveToArray s CURVE_RESOLUTION).getD i 0 ∧
          (combinedCurveTable s o v r).getD (4 * i + 1) 0 =
            (bakeCurveToArray o CURVE_RESOLUTION).getD i 0 ∧
          (combinedCurveTable s o v r).getD (4 * i + 2) 0 =
            (bakeCurveToArray v CURVE_RESOLUTION).getD i 0 ∧
          (combinedCurveTable s o v r).getD (4 * i + 3) 0 =
            (bakeCurveToArray r CURVE_RESOLUTION).getD i 0) ∧
      ((curveChannelMask s o v r &&& 1 ≠ 0) ↔ s.isSome) ∧
      ((curveChannelMask s o v r &&& 2 ≠ 0) ↔ o.isSome) ∧
      ((curveChannelMask s o v r &&& 4 ≠ 0) ↔ v.isSome) ∧
      ((curveChannelMask s o v r &&& 8 ≠ 0) ↔ r.isSome) := by
  have hlen : (buildCurveTextureBin s o v r).length =
      4 + CURVE_RESOLUTION * 4 := by
    simp only [buildCurveTextureBin, List.length_cons, combinedCurveTable,
      interleave4_length]
    omega
  refine ⟨?_, fun i hi => interleave4_getD _ _ _ _ _ i hi, ?_, ?_, ?_, ?_⟩
  · unfold loadCurveTextureBin
    rw [if_pos ⟨hlen, rfl⟩]
    rfl
  all_goals
    unfold curveChannelMask
    rcases s with _ | cs <;> rcases o with _ | co <;> rcases v with _ | cv <;>
      rcases r with _ | cr <;> simp <;> decide

/-- Witness for `curve_bin_round_trip`'s indexed part at sample 0 with all
four curves null. -/
theorem curve_bin_round_trip_witness :
    (combinedCurveTable none none none none).getD (4 * 0) 0 =
        (bakeCurveToArray none CURVE_RESOLUTION).getD 0 0 ∧
      (combinedCurveTable none none none none).getD (4 * 0 + 1) 0 =
        (bakeCurveToArray none CURVE_RESOLUTION).getD 0 0 ∧
      (combinedCurveTable none none none none).getD (4 * 0 + 2) 0 =
        (bakeCurveToArray none CURVE_RESOLUTION).getD 0 0 ∧
      (combinedCurveTable none none none none).getD (4 * 0 + 3) 0 =
        (bakeCurveToArray none CURVE_RESOLUTION).getD 0 0 :=
  (curve_bin_round_trip none none none none).2.1 0 (by decide)

/-! ### The recreation gate (C7) -/

/-- C7: `needsRecreation` returns true exactly when a structural key
(`maxParticles`, `lighting`, `appearance`, `shadow`, `orientToDirection`)
occurs among the changed keys, or `resolveFeatures` of the merged config
differs from the current features in at least one of the five compared
flags (turbulence, attractors, collision, needsRotation,
needsPerParticleColor). -/
theorem needsRecreation_iff (cur : ShaderFeatures) (changed : List String)
    (merged : FeatureProps) :
    needsRecreation cur changed merged = true ↔
      ((∃ k ∈ STRUCTURAL_KEYS, k ∈ changed) ∨
        (resolveFeatures merged).turbulence ≠ cur.turbulence ∨
        (resolveFeatures merged).attractors ≠ cur.attractors ∨
        (resolveFeatures merged).collision ≠ cur.collision ∨
        (resolveFeatures merged).needsRotation ≠ cur.needsRotation ∨
        (resolveFeatures merged).needsPerParticleColor ≠
          cur.needsPerParticleColor) := by
  unfold needsRecreation
  split_ifs <;>
    simp_all [List.any_eq_true, List.elem_iff, bne_iff_ne]

/-! ### The emitter controller timer (C8) -/

/-- C8 counterexample: the accumulator is not reset to zero on emit — the
code subtracts the delay.  With `delay = 1`, accumulator 0 and `dt = 3`,
the controller emits and leaves the accumulator at `2`, not `0` (and the
emit fires when the accumulator merely reaches the delay, not only when it
exceeds it). -/
theorem emitter_reset_counterexample :
    emitterUpdate { loop := none, delay := some 1 } true
        ⟨true, 0, false⟩ 3 =
      (⟨true, 2, true⟩, true) ∧ (2 : ℚ) ≠ 0 := by
  refine ⟨?_, by norm_num⟩
  norm_num [emitterUpdate, Prod.ext_iff, EmitterTimerState.mk.injEq]

/-- C8 (amended): `EmitterController.update`: when not emitting it is a
no-op; when not looping and an emit has already occurred it is a no-op;
when `delay ≤ 0` it emits on every call (whenever a system is attached);
otherwise it accumulates `dt` and emits once the accumulator reaches
(`≥`) the delay, subtracting the delay from the accumulator rather than
zeroing it — so with `delay > 0` at most one emit happens per update
call. -/
theorem emitter_update_behavior (opts : EmitterTimerOptions)
    (hasSystem : Bool) (s : EmitterTimerState) (dt : ℚ) :
    (s.isEmitting = false → emitterUpdate opts hasSystem s dt = (s, false)) ∧
      (s.isEmitting = true → opts.loop.getD true = false →
        s.hasEmittedOnce = true →
        emitterUpdate opts hasSystem s dt = (s, false)) ∧
      (s.isEmitting = true →
        (opts.loop.getD true = true ∨ s.hasEmittedOnce = false) →
        opts.delay.getD 0 ≤ 0 →
        (emitterUpdate opts hasSystem s dt).2 = hasSystem) ∧
      (s.isEmitting = true →
        (opts.loop.getD true = true ∨ s.hasEmittedOnce = false) →
        0 < opts.delay.getD 0 →
        ((s.emitAccumulator + dt ≥ opts.delay.getD 0 →
          emitterUpdate opts hasSystem s dt =
            ({ s with
                emitAccumulator :=
                  s.emitAccumulator + dt - opts.delay.getD 0
                hasEmittedOnce := s.hasEmittedOnce || hasSystem },
              hasSystem)) ∧
          (¬(s.emitAccumulator + dt ≥ opts.delay.getD 0) →
            emitterUpdate opts hasSystem s dt =
              ({ s with emitAccumulator := s.emitAccumulator + dt },
                false)))) := by
  refine ⟨?_, ?_, ?_, ?_⟩
  · intro h
    simp [emitterUpdate, h]
  · intro h1 h2 h3
    simp [emitterUpdate, h1, h2, h3]
  · intro h1 h2 h3
    rcases h2 with h2 | h2 <;>
      simp [emitterUpdate, h1, h2, h3]
  · intro h1 h2 h3
    constructor
    · intro hge
      rcases h2 with h2 | h2 <;>
        simp [emitterUpdate, h1, h2, not_le.mpr h3, hge]
    · intro hlt
      rcases h2 with h2 | h2 <;>
        simp [emitterUpdate, h1, h2, not_le.mpr h3, hlt]

/-- Witness for `emitter_update_behavior`: delay 1, accumulator 0,
`dt = 2`, a system attached. -/
theorem emitter_update_behavior_witness :
    let opts : EmitterTimerOptions := { loop := none, delay := some 1 }
    let s : EmitterTimerState := ⟨true, 0, false⟩
    (s.isEmitting = false → emitterUpdate opts true s 2 = (s, false)) ∧
      (s.isEmitting = true → opts.loop.getD true = false →
        s.hasEmittedOnce = true → emitterUpdate opts true s 2 = (s, false)) ∧
      (s.isEmitting = true →
        (opts.loop.getD true = true ∨ s.hasEmittedOnce = false) →
        opts.delay.getD 0 ≤ 0 →
        (emitterUpdate opts true s 2).2 = true) ∧
      (s.isEmitting = true →
        (opts.loop.getD true = true ∨ s.hasEmittedOnce = false) →
        0 < opts.delay.getD 0 →
        ((s.emitAccumulator + 2 ≥ opts.delay.getD 0 →
          emitterUpdate opts true s 2 =
            ({ s with
                emitAccumulator := s.emitAccumulator + 2 - opts.delay.getD 0
                hasEmittedOnce := s.hasEmittedOnce || true }, true)) ∧
          (¬(s.emitAccumulator + 2 ≥ opts.delay.getD 0) →
            emitterUpdate opts true s 2 =
              ({ s with emitAccumulator := s.emitAccumulator + 2 },
                false)))) :=
  emitter_update_behavior { loop := none, delay := some 1 } true
    ⟨true, 0, false⟩ 2

/-! ### Colour palette lookup (C10) -/

/-- C10: the palette index `floor(rand·colorCount)` is clamped into
`[0, 7]` before the lookup, so even when the active colour count recorded
by `normalizeProps` (the raw list length) exceeds the 8 padded palette
slots, the lookup always reads one of the 8 existing cells — and a missing
cell falls back to white `[1, 1, 1]`. -/
theorem color_index_clamped (rand count : ℚ) (palette : ℤ → Option Vec3)
    (hex : String → Vec3) (cs : List String)
    (hmiss : palette (clampColorIdx ((⌊rand * count⌋ : ℤ) : ℚ)) = none) :
    (0 ≤ clampColorIdx ((⌊rand * count⌋ : ℤ) : ℚ) ∧
        clampColorIdx ((⌊rand * count⌋ : ℤ) : ℚ) ≤ 7) ∧
      ((normalizeColorList hex cs).1.length = 8 ∧
        (normalizeColorList hex cs).2 = cs.length) ∧
      (∀ l : List Vec3, l.length = 8 →
        ∃ c, paletteOf l (clampColorIdx ((⌊rand * count⌋ : ℤ) : ℚ)) = some c ∧
          cpuColorLookup (paletteOf l) rand count = c) ∧
      cpuColorLookup palette rand count = ⟨1, 1, 1⟩ := by
  have hfloor : clampColorIdx ((⌊rand * count⌋ : ℤ) : ℚ) =
      min (max ⌊rand * count⌋ 0) 7 := by
    rw [clampColorIdx, Int.floor_intCast]
  have hb : 0 ≤ clampColorIdx ((⌊rand * count⌋ : ℤ) : ℚ) ∧
      clampColorIdx ((⌊rand * count⌋ : ℤ) : ℚ) ≤ 7 := by
    rw [hfloor]
    omega
  refine ⟨hb, ⟨?_, rfl⟩, ?_, ?_⟩
  · have htake : ((cs.take 8).map hex).length ≤ 8 := by
      rw [List.length_map, List.length_take]
      omega
    simp only [normalizeColorList, pad8, List.length_append,
      List.length_replicate]
    omega
  · intro l hl
    have hidx : (clampColorIdx ((⌊rand * count⌋ : ℤ) : ℚ)).toNat < l.length := by
      rw [hl]
      omega
    have hnneg : ¬(clampColorIdx ((⌊rand * count⌋ : ℤ) : ℚ) < 0) :=
      not_lt.mpr hb.1
    refine ⟨l.get ⟨_, hidx⟩, ?_, ?_⟩
    · rw [paletteOf, if_neg hnneg, List.get?_eq_get hidx]
    · rw [cpuColorLookup, getColorOpt, paletteOf, if_neg hnneg,
        List.get?_eq_get hidx]
  · rw [cpuColorLookup, getColorOpt, hmiss]

/-- Witness for `color_index_clamped`: `rand·count = 20` on a 12-colour
configuration (count > 8), an empty palette for the fallback. -/
theorem color_index_clamped_witness :
    (0 ≤ clampColorIdx ((⌊(1 : ℚ) * 20⌋ : ℤ) : ℚ) ∧
        clampColorIdx ((⌊(1 : ℚ) * 20⌋ : ℤ) : ℚ) ≤ 7) ∧
      ((normalizeColorList (fun _ => ⟨1, 1, 1⟩)
          ["a", "b", "c", "d", "e", "f", "g", "h", "i", "j", "k", "l"]).1.length = 8 ∧
        (normalizeColorList (fun _ => ⟨1, 1, 1⟩)
          ["a", "b", "c", "d", "e", "f", "g", "h", "i", "j", "k", "l"]).2 =
          (["a", "b", "c", "d", "e", "f", "g", "h", "i", "j", "k", "l"] :
            List String).length) ∧
      (∀ l : List Vec3, l.length = 8 →
        ∃ c, paletteOf l (clampColorIdx ((⌊(1 : ℚ) * 20⌋ : ℤ) : ℚ)) = some c ∧
          cpuColorLookup (paletteOf l) 1 20 = c) ∧
      cpuColorLookup (fun _ => none) 1 20 = ⟨1, 1, 1⟩ :=
  color_index_clamped 1 20 (fun _ => none) (fun _ => ⟨1, 1, 1⟩)
    ["a", "b", "c", "d", "e", "f", "g", "h", "i", "j", "k", "l"] rfl

end VFX
